import Mathlib

/-!
# Orbbec camera SDK wrapper and calibration samples: verification development

A shallow embedding of the C++ wrapper layer (`include/hpp/*.hpp`), of the
sample viewer (`CamerasStream.cpp`, `include/hpp/window.hpp`) and of the image
loop of the calibrator (`Internal_cali.cpp`).

Conventions of the embedding

* A handle of the core library (`ob2_image_t`, `ob2_capture_t`, ...) is a pointer;
  it is a natural number here and `0` is the null pointer.
* A C++ function that may throw returns `Except Exn _`.
* The closed core library is not part of the repository. A call into it is
  recorded in a trace of `CoreCall`s when only the call matters, and its answer
  (returned handle and `ob2_status_t`) is an argument of the embedded function
  when the wrapper branches on it.
* User callbacks (`std::function`) act on a user state `σ`; an empty
  `std::function` is `none`.
* Behaviour that lives only in the closed core (reference counting, profile
  matching, capture synchronization) is modelled from the specification in the
  namespace `spec`; every such definition says so in its comment.
* A value of type `float` or `double` is the rational number it stands for. The
  `double` and `float` operations of the calibrator round to nearest (namespace
  `ieee`). The scaling of a 16-bit image by OpenCV is exact for the IR image
  (factor `255 / 1024`); for the depth image it depends on the rounding inside
  OpenCV and is an operation of the codec.
-/

namespace ob2

/-! ## `h/ob2types.h` -/

/-- A pointer to a core object; `0` is `nullptr`. -/
abbrev Handle := Nat

/-- The null pointer. -/
def nullptr : Handle := 0

/-- Status code `OB2_STATUS_OK = 0`. -/
def OB2_STATUS_OK : Int := 0
/-- Status code `OB2_STATUS_LOGIC_ERROR = 1`. -/
def OB2_STATUS_LOGIC_ERROR : Int := 1
/-- Status code `OB2_STATUS_RUNTIME_ERROR = 2`. -/
def OB2_STATUS_RUNTIME_ERROR : Int := 2
/-- Status code `OB2_STATUS_UNKNOWN_ERROR = 255`. -/
def OB2_STATUS_UNKNOWN_ERROR : Int := 255

/-- The struct `ob2_status_t`: the status code (an enum, any integer value
can be stored in it) and the message. -/
structure ob2_status_t where
  code : Int
  message : String
deriving DecidableEq, Repr

/-- Camera type `OB2_CAMERA_UNKNOWN = 0`. -/
def OB2_CAMERA_UNKNOWN : Nat := 0
/-- Camera type `OB2_CAMERA_COLOR = 1`. -/
def OB2_CAMERA_COLOR : Nat := 1
/-- Camera type `OB2_CAMERA_DEPTH = 2`. -/
def OB2_CAMERA_DEPTH : Nat := 2
/-- Camera type `OB2_CAMERA_IR = 3`. -/
def OB2_CAMERA_IR : Nat := 3

/-- Image format `OB2_FORMAT_YUYV = 0`. -/
def OB2_FORMAT_YUYV : Nat := 0
/-- Image format `OB2_FORMAT_NV12 = 3`. -/
def OB2_FORMAT_NV12 : Nat := 3
/-- Image format `OB2_FORMAT_MJPG = 5`. -/
def OB2_FORMAT_MJPG : Nat := 5
/-- Image format `OB2_FORMAT_Y16 = 8`. -/
def OB2_FORMAT_Y16 : Nat := 8
/-- Image format `OB2_FORMAT_Y8 = 9`. -/
def OB2_FORMAT_Y8 : Nat := 9
/-- Image format `OB2_FORMAT_RGB = 22`. -/
def OB2_FORMAT_RGB : Nat := 22
/-- Image format `OB2_FORMAT_ANY = 0xfe`, for fuzzy matching. -/
def OB2_FORMAT_ANY : Nat := 0xfe

/-- The macro `OB2_DEFAULT_STREAM_PROFILE`, `(0)`: the index of the default profile. -/
def OB2_DEFAULT_STREAM_PROFILE : Nat := 0
/-- The macro `OB2_ANY_WIDTH`, `(0)`. -/
def OB2_ANY_WIDTH : Nat := 0
/-- The macro `OB2_ANY_HEIGHT`, `(0)`. -/
def OB2_ANY_HEIGHT : Nat := 0
/-- The macro `OB2_ANY_FRAME_RATE`, `(0)`. -/
def OB2_ANY_FRAME_RATE : Nat := 0
/-- The macro `OB2_ANY_IAMGE_FORMAT`, `(OB2_FORMAT_ANY)`. -/
def OB2_ANY_IAMGE_FORMAT : Nat := OB2_FORMAT_ANY

/-- The struct `ob2_camera_stream_profile_t`. -/
structure ob2_camera_stream_profile_t where
  width_pixels : Nat
  height_pixels : Nat
  frame_rate : Nat
  format : Nat
deriving DecidableEq, Repr

/-! ## `hpp/OB2Types.hpp` -/

/-- What a wrapper function can throw: `std::logic_error`, `std::runtime_error`,
the bare message of a status (`throw status.message`), and
`std::bad_function_call` (calling an empty `std::function`). -/
inductive Exn where
  | logic_error (what : String)
  | runtime_error (what : String)
  | raw_message (message : String)
  | bad_function_call
deriving DecidableEq, Repr

/-- The macro `CHECK_OB2_STATUS_ERROR_THROW(status)`: a switch on `status.code`. -/
def CHECK_OB2_STATUS_ERROR_THROW (status : ob2_status_t) : Except Exn Unit :=
  if status.code = OB2_STATUS_LOGIC_ERROR then
    .error (.logic_error status.message)
  else if status.code = OB2_STATUS_RUNTIME_ERROR then
    .error (.runtime_error status.message)
  else if status.code = OB2_STATUS_UNKNOWN_ERROR then
    .error (.raw_message status.message)
  else
    .ok ()

/-- The text thrown by `VALIDATE_NOT_NULL(ARG)`, `ARG` being the spelling of the
argument. -/
def null_message (arg : String) : String :=
  "NULL pointer passed for argument \"" ++ arg ++ "\""

/-- The macro `VALIDATE_NOT_NULL(ARG)`: throws `std::logic_error` when `ARG` is
null; `arg` is the spelling of the argument, which the macro puts in the text. -/
def VALIDATE_NOT_NULL (ARG : Handle) (arg : String) : Except Exn Unit :=
  if ARG = nullptr then .error (.logic_error (null_message arg)) else .ok ()

/-- The type `buffer_release_cb`, a `std::function<void(uint8_t *buffer)>`
acting on the user state `σ`; the buffer pointer is a natural number. -/
abbrev buffer_release_cb (σ : Type) := Option (Nat → σ → σ)

/-! ## Calls into the core library that are recorded -/

/-- The eleven conversion functions of the core declared in `h/ob2extension.h`,
`ob2_image_format_converter_yuyv_to_rgb` and so on. -/
inductive ConverterFn where
  | ob2_image_format_converter_yuyv_to_rgb
  | ob2_image_format_converter_uyvy_to_rgb
  | ob2_image_format_converter_i420_to_rgb
  | ob2_image_format_converter_nv21_to_rgb
  | ob2_image_format_converter_nv12_to_rgb
  | ob2_image_format_converter_rgb_to_bgr
  | ob2_image_format_converter_mjpg_to_i420
  | ob2_image_format_converter_mjpg_to_nv21
  | ob2_image_format_converter_mjpg_to_rgb
  | ob2_image_format_converter_mjpg_to_bgr
  | ob2_image_format_converter_mjpg_to_bgra
deriving DecidableEq, Repr

/-- The functions of the core whose calls are recorded, each with the handles it
is given: the release functions, the two functions that start the cameras
(device handle, cameras config handle), the format conversions (which
function, converter handle, source image handle) and the four functions that
enable or disable a stream of an IMU config. -/
inductive CoreCall where
  | ob2_cameras_config_release (h : Handle)
  | ob2_image_release (h : Handle)
  | ob2_capture_release (h : Handle)
  | ob2_imu_config_release (h : Handle)
  | ob2_imu_sample_release (h : Handle)
  | ob2_device_close (h : Handle)
  | ob2_device_start_cameras (device_handle cameras_config_handle : Handle)
  | ob2_device_start_cameras_with_callback (device_handle cameras_config_handle : Handle)
  | ob2_image_format_converter (fn : ConverterFn) (converter_handle source_image_handle : Handle)
  | ob2_imu_config_enable_accel_stream (imu_config_handle : Handle)
  | ob2_imu_config_disable_accel_stream (imu_config_handle : Handle)
  | ob2_imu_config_enable_gyro_stream (imu_config_handle : Handle)
  | ob2_imu_config_disable_gyro_stream (imu_config_handle : Handle)
deriving DecidableEq, Repr

/-- The calls made into the core so far, oldest first. -/
abbrev Trace := List CoreCall

/-! ## `hpp/OB2Camera.hpp`: `cameras_config` -/

/-- The class `cameras_config`; its only member is the handle. -/
structure cameras_config where
  m_cameras_config_handle : Handle
deriving DecidableEq, Repr

/-- The constructor `cameras_config(ob2_cameras_config_t &&cameras_config_handle)`. -/
def cameras_config.from_handle (cameras_config_handle : Handle) : Except Exn cameras_config := do
  let self : cameras_config := ⟨cameras_config_handle⟩
  VALIDATE_NOT_NULL self.m_cameras_config_handle "m_cameras_config_handle"
  pure self

/-- The move constructor `cameras_config(cameras_config &&config)`: returns the
new object and the source object as it is left. -/
def cameras_config.move (config : cameras_config) : Except Exn (cameras_config × cameras_config) := do
  let self : cameras_config := ⟨config.m_cameras_config_handle⟩
  VALIDATE_NOT_NULL self.m_cameras_config_handle "m_cameras_config_handle"
  pure (self, { config with m_cameras_config_handle := nullptr })

/-- The destructor `~cameras_config()`. -/
def cameras_config.destroy (self : cameras_config) (t : Trace) : Trace :=
  if self.m_cameras_config_handle ≠ nullptr then
    t ++ [.ob2_cameras_config_release self.m_cameras_config_handle]
  else t

/-- The method `cameras_config::get_handle()`. -/
def cameras_config.get_handle (self : cameras_config) : Handle :=
  self.m_cameras_config_handle

/-! ## `hpp/OB2Camera.hpp`: `image` -/

/-- The class `image`: the handle and the buffer release callback. -/
structure image (σ : Type) where
  m_image_handle : Handle
  m_buffer_release_cb : buffer_release_cb σ

/-- The constructor from a user buffer, `image(source_camera_type, image_format,
width_pixels, height_pixels, stride_bytes, buffer, buffer_size, cb)`. The answer
of `ob2_image_create_from_buffer` (new handle and status) is `created`; the core
is given `&image::buffer_release_callback` and `this` as user data. -/
def image.from_buffer {σ : Type} (created : Handle × ob2_status_t) (cb : buffer_release_cb σ) :
    Except Exn (image σ) := do
  let m_buffer_release_cb := cb
  let m_image_handle := created.1
  CHECK_OB2_STATUS_ERROR_THROW created.2
  pure ⟨m_image_handle, m_buffer_release_cb⟩

/-- The constructor `image(ob2_image_t &&image_handle)`; the callback member is
default-constructed (empty). -/
def image.from_handle {σ : Type} (image_handle : Handle) : Except Exn (image σ) := do
  let self : image σ := ⟨image_handle, none⟩
  VALIDATE_NOT_NULL image_handle "image_handle"
  pure self

/-- The move constructor `image(image &&img)`: only the handle is taken over, the
callback member of the new object is default-constructed. -/
def image.move {σ : Type} (img : image σ) : Except Exn (image σ × image σ) := do
  let self : image σ := ⟨img.m_image_handle, none⟩
  VALIDATE_NOT_NULL self.m_image_handle "m_image_handle"
  pure (self, { img with m_image_handle := nullptr })

/-- The destructor `~image()`. -/
def image.destroy {σ : Type} (self : image σ) (t : Trace) : Trace :=
  if self.m_image_handle ≠ nullptr then
    t ++ [.ob2_image_release self.m_image_handle]
  else t

/-- The method `image::get_handle()`. -/
def image.get_handle {σ : Type} (self : image σ) : Handle :=
  self.m_image_handle

/-- The static member `image::buffer_release_callback(buffer, user_data)`, the
function registered with the core: `user_data` is the image, whose callback is
called with `buffer`. Calling an empty `std::function` throws. -/
def image.buffer_release_callback {σ : Type} (buffer : Nat) (user_data : image σ) (s : σ) :
    Except Exn σ :=
  let im := user_data
  match im.m_buffer_release_cb with
  | some f => .ok (f buffer s)
  | none => .error .bad_function_call

/-! ## `hpp/OB2Camera.hpp`: `capture` -/

/-- The class `capture`; its only member is the handle. -/
structure capture where
  m_capture_handle : Handle
deriving DecidableEq, Repr

/-- The constructor `capture(ob2_capture_t &&capture_handle)`. -/
def capture.from_handle (capture_handle : Handle) : Except Exn capture := do
  let self : capture := ⟨capture_handle⟩
  VALIDATE_NOT_NULL capture_handle "capture_handle"
  pure self

/-- The move constructor `capture(capture &&cap)`. -/
def capture.move (cap : capture) : Except Exn (capture × capture) := do
  let self : capture := ⟨cap.m_capture_handle⟩
  VALIDATE_NOT_NULL self.m_capture_handle "m_capture_handle"
  pure (self, { cap with m_capture_handle := nullptr })

/-- The destructor `~capture()`. -/
def capture.destroy (self : capture) (t : Trace) : Trace :=
  if nullptr ≠ self.m_capture_handle then
    t ++ [.ob2_capture_release self.m_capture_handle]
  else t

/-- The method `capture::get_handle()`. -/
def capture.get_handle (self : capture) : Handle :=
  self.m_capture_handle

/-! ## `hpp/OB2IMU.hpp`: `imu_config`, `imu_sample` -/

/-- The class `imu_config`; its only member is the handle. -/
structure imu_config where
  m_imu_config_handle : Handle
deriving DecidableEq, Repr

/-- The constructor `imu_config(ob2_imu_config_t &&imu_config_handle)`. -/
def imu_config.from_handle (imu_config_handle : Handle) : Except Exn imu_config := do
  let self : imu_config := ⟨imu_config_handle⟩
  VALIDATE_NOT_NULL self.m_imu_config_handle "m_imu_config_handle"
  pure self

/-- The destructor `~imu_config()`. -/
def imu_config.destroy (self : imu_config) (t : Trace) : Trace :=
  if self.m_imu_config_handle ≠ nullptr then
    t ++ [.ob2_imu_config_release self.m_imu_config_handle]
  else t

/-- The method `imu_config::get_handle()`. -/
def imu_config.get_handle (self : imu_config) : Handle :=
  self.m_imu_config_handle

/-- The class `imu_sample`; its only member is the handle. -/
structure imu_sample where
  m_imu_sample_handle : Handle
deriving DecidableEq, Repr

/-- The constructor `imu_sample(ob2_imu_sample_t &&imu_sample_handle)`. -/
def imu_sample.from_handle (imu_sample_handle : Handle) : Except Exn imu_sample := do
  let self : imu_sample := ⟨imu_sample_handle⟩
  VALIDATE_NOT_NULL self.m_imu_sample_handle "m_imu_sample_handle"
  pure self

/-- The destructor `~imu_sample()`. -/
def imu_sample.destroy (self : imu_sample) (t : Trace) : Trace :=
  if self.m_imu_sample_handle ≠ nullptr then
    t ++ [.ob2_imu_sample_release self.m_imu_sample_handle]
  else t

/-- The method `imu_sample::get_handle()`. -/
def imu_sample.get_handle (self : imu_sample) : Handle :=
  self.m_imu_sample_handle

/-! ## `hpp/OB2Device.hpp`: `device` -/

/-- The type `firmware_update_state_cb`,
a `std::function<void(ob2_update_state_t, std::string, uint8_t)>`. -/
abbrev firmware_update_state_cb (σ : Type) := Option (Int → String → Nat → σ → σ)

/-- The type `capture_cb`, a `std::function<void(std::shared_ptr<capture>)>`. -/
abbrev capture_cb (σ : Type) := Option (capture → σ → σ)

/-- The type `imu_sample_cb`, a `std::function<void(std::shared_ptr<imu_sample>)>`. -/
abbrev imu_sample_cb (σ : Type) := Option (imu_sample → σ → σ)

/-- The class `device`: three callbacks and the handle. -/
structure device (σ : Type) where
  m_firmware_update_state_cb : firmware_update_state_cb σ
  m_capture_cb : capture_cb σ
  m_imu_sample_cb : imu_sample_cb σ
  m_device_handle : Handle

/-- The constructor `device(ob2_device_t &&device_handle)`: the capture and the
firmware callbacks are set to `nullptr`, the IMU callback is default-constructed. -/
def device.from_handle {σ : Type} (device_handle : Handle) : Except Exn (device σ) := do
  let self : device σ := ⟨none, none, none, device_handle⟩
  VALIDATE_NOT_NULL self.m_device_handle "m_device_handle"
  pure self

/-- The destructor `~device()`. -/
def device.destroy {σ : Type} (self : device σ) (t : Trace) : Trace :=
  if self.m_device_handle ≠ nullptr then
    t ++ [.ob2_device_close self.m_device_handle]
  else t

/-- The method `device::get_handle()`. -/
def device.get_handle {σ : Type} (self : device σ) : Handle :=
  self.m_device_handle

/-- The method `device::get_capture(timeout_msec)`. The answer of
`ob2_device_get_capture(m_device_handle, timeout_msec, &status)`, the returned
handle and the status, is given by `core`; `nullptr` is returned as `none`. -/
def device.get_capture {σ : Type} (core : Handle → Int → Handle × ob2_status_t)
    (self : device σ) (timeout_msec : Int) : Except Exn (Option capture) := do
  let answer := core self.m_device_handle timeout_msec
  let capture_handle := answer.1
  let status := answer.2
  CHECK_OB2_STATUS_ERROR_THROW status
  if nullptr ≠ capture_handle then
    let cap ← capture.from_handle capture_handle
    pure (some cap)
  else
    pure none

/-- The macro `OB2_DEFAULT_CAMERAS_CONFIG`, `(nullptr)`. -/
def OB2_DEFAULT_CAMERAS_CONFIG : Handle := nullptr

/-- The answers of the core to the two stream profile queries:
`ob2_device_get_camera_stream_profile_count(device_handle, camera_type, &status)`
and `ob2_device_get_camera_stream_profile(device_handle, camera_type, index,
&status)`, each a function of its arguments. -/
structure ProfileCore where
  ob2_device_get_camera_stream_profile_count : Handle → Nat → Nat × ob2_status_t
  ob2_device_get_camera_stream_profile :
    Handle → Nat → Nat → ob2_camera_stream_profile_t × ob2_status_t

/-- The loop `for(uint32_t index = 0; index < count; index++)` of
`device::get_camera_stream_profile_list`, from the current `index` and
`profile_list` on. -/
def device.get_camera_stream_profile_list.loop {σ : Type} (core : ProfileCore) (self : device σ)
    (camera_type count index : Nat) (profile_list : List ob2_camera_stream_profile_t) :
    Except Exn (List ob2_camera_stream_profile_t) :=
  if index < count then
    let answer := core.ob2_device_get_camera_stream_profile self.m_device_handle camera_type index
    match CHECK_OB2_STATUS_ERROR_THROW answer.2 with
    | .error e => .error e
    | .ok _ =>
      device.get_camera_stream_profile_list.loop core self camera_type count (index + 1)
        (profile_list ++ [answer.1])
  else .ok profile_list
termination_by count - index

/-- The method `device::get_camera_stream_profile_list(camera_type)`. -/
def device.get_camera_stream_profile_list {σ : Type} (core : ProfileCore) (self : device σ)
    (camera_type : Nat) : Except Exn (List ob2_camera_stream_profile_t) := do
  let answer := core.ob2_device_get_camera_stream_profile_count self.m_device_handle camera_type
  let count := answer.1
  CHECK_OB2_STATUS_ERROR_THROW answer.2
  device.get_camera_stream_profile_list.loop core self camera_type count 0 []

/-- The method `device::get_default_camera_stream_profile(camera_type)`. -/
def device.get_default_camera_stream_profile {σ : Type} (core : ProfileCore) (self : device σ)
    (camera_type : Nat) : Except Exn ob2_camera_stream_profile_t := do
  let answer := core.ob2_device_get_camera_stream_profile self.m_device_handle camera_type
    OB2_DEFAULT_STREAM_PROFILE
  let profile := answer.1
  CHECK_OB2_STATUS_ERROR_THROW answer.2
  pure profile

/-- The method `device::start_cameras(cam_config)`; a null `shared_ptr` is `none`,
`core` gives the status that `ob2_device_start_cameras` puts out. The result is
the trace with the call added and what the method returns or throws;
`cam_config` is only read. -/
def device.start_cameras {σ : Type} (core : Handle → Handle → ob2_status_t) (self : device σ)
    (cam_config : Option cameras_config) (t : Trace) : Trace × Except Exn Unit :=
  let cameras_config_handle :=
    match cam_config with
    | some c => c.get_handle
    | none => OB2_DEFAULT_CAMERAS_CONFIG
  let status := core self.m_device_handle cameras_config_handle
  (t ++ [.ob2_device_start_cameras self.m_device_handle cameras_config_handle],
    CHECK_OB2_STATUS_ERROR_THROW status)

/-- The method `device::start_cameras_with_callback(cam_config, cb)`: the
callback is stored in the device before the core is called (with
`&device::capture_callback` and `this` as user data). The result is the device
as it is left, the trace with the call added, and what the method returns or
throws. -/
def device.start_cameras_with_callback {σ : Type} (core : Handle → Handle → ob2_status_t)
    (self : device σ) (cam_config : Option cameras_config) (cb : capture_cb σ) (t : Trace) :
    device σ × Trace × Except Exn Unit :=
  let cameras_config_handle :=
    match cam_config with
    | some c => c.get_handle
    | none => OB2_DEFAULT_CAMERAS_CONFIG
  let self := { self with m_capture_cb := cb }
  let status := core self.m_device_handle cameras_config_handle
  (self, t ++ [.ob2_device_start_cameras_with_callback self.m_device_handle cameras_config_handle],
    CHECK_OB2_STATUS_ERROR_THROW status)

/-- The static member `device::capture_callback(capture_handle, user_data)`, the
function registered with the core: when the device holds a capture callback, a
`capture` is built from the handle and the callback is called with it. -/
def device.capture_callback {σ : Type} (capture_handle : Handle) (user_data : device σ) (s : σ) :
    Except Exn σ :=
  let dev := user_data
  match dev.m_capture_cb with
  | some f => do
    let cap ← capture.from_handle capture_handle
    pure (f cap s)
  | none => pure s

/-- The method `device::update_firmware(firmware_file_path, callback,
enable_async_mode)`: the core is given `&device::firmware_update_state_callback`
and `this`; `status` is what the core puts out. No member of the device is
assigned. The result is the device as it is left and what the method returns or
throws. -/
def device.update_firmware {σ : Type} (status : ob2_status_t) (self : device σ)
    (_firmware_file_path : String) (_callback : firmware_update_state_cb σ)
    (_enable_async_mode : Nat) : device σ × Except Exn Unit :=
  (self, CHECK_OB2_STATUS_ERROR_THROW status)

/-- The static member `device::firmware_update_state_callback(state, message,
percent, user_data)`, the function registered with the core. -/
def device.firmware_update_state_callback {σ : Type} (state : Int) (message : String)
    (percent : Nat) (user_data : device σ) (s : σ) : σ :=
  let dev := user_data
  match dev.m_firmware_update_state_cb with
  | some f => f state message percent s
  | none => s

/-! ## `hpp/OB2Extension.hpp`: `image_format_converter` -/

/-- The class `image_format_converter`; its only member is the handle. -/
structure image_format_converter where
  m_converter_handle : Handle
deriving DecidableEq, Repr

/-- The body shared by the eleven conversion methods, `fn` being the function of
the core that the method names in its text: the handle of the source image is
read, `fn` is called with the converter and that handle, the status is checked
and the returned handle is wrapped in an `image`. `core` gives the answer of the
called function. -/
def image_format_converter.call {σ : Type}
    (core : ConverterFn → Handle → Handle → Handle × ob2_status_t) (fn : ConverterFn)
    (self : image_format_converter) (source_image : image σ) (t : Trace) :
    Trace × Except Exn (image σ) :=
  let source_image_handle := source_image.get_handle
  let answer := core fn self.m_converter_handle source_image_handle
  let result_image_handle := answer.1
  (t ++ [.ob2_image_format_converter fn self.m_converter_handle source_image_handle],
    do
      CHECK_OB2_STATUS_ERROR_THROW answer.2
      image.from_handle result_image_handle)

/-- The method `image_format_converter::yuyv_to_rgb(source_image)`. -/
def image_format_converter.yuyv_to_rgb {σ : Type}
    (core : ConverterFn → Handle → Handle → Handle × ob2_status_t)
    (self : image_format_converter) (source_image : image σ) (t : Trace) :
    Trace × Except Exn (image σ) :=
  self.call core .ob2_image_format_converter_yuyv_to_rgb source_image t

/-- The method `image_format_converter::uyvy_to_rgb(source_image)`. -/
def image_format_converter.uyvy_to_rgb {σ : Type}
    (core : ConverterFn → Handle → Handle → Handle × ob2_status_t)
    (self : image_format_converter) (source_image : image σ) (t : Trace) :
    Trace × Except Exn (image σ) :=
  self.call core .ob2_image_format_converter_uyvy_to_rgb source_image t

/-- The method `image_format_converter::i420_to_rgb(source_image)`; its text
calls `ob2_image_format_converter_uyvy_to_rgb`. -/
def image_format_converter.i420_to_rgb {σ : Type}
    (core : ConverterFn → Handle → Handle → Handle × ob2_status_t)
    (self : image_format_converter) (source_image : image σ) (t : Trace) :
    Trace × Except Exn (image σ) :=
  self.call core .ob2_image_format_converter_uyvy_to_rgb source_image t

/-- The method `image_format_converter::nv21_to_rgb(source_image)`; its text
calls `ob2_image_format_converter_uyvy_to_rgb`. -/
def image_format_converter.nv21_to_rgb {σ : Type}
    (core : ConverterFn → Handle → Handle → Handle × ob2_status_t)
    (self : image_format_converter) (source_image : image σ) (t : Trace) :
    Trace × Except Exn (image σ) :=
  self.call core .ob2_image_format_converter_uyvy_to_rgb source_image t

/-- The method `image_format_converter::nv12_to_rgb(source_image)`. -/
def image_format_converter.nv12_to_rgb {σ : Type}
    (core : ConverterFn → Handle → Handle → Handle × ob2_status_t)
    (self : image_format_converter) (source_image : image σ) (t : Trace) :
    Trace × Except Exn (image σ) :=
  self.call core .ob2_image_format_converter_nv12_to_rgb source_image t

/-- The method `image_format_converter::rgb_to_bgr(source_image)`. -/
def image_format_converter.rgb_to_bgr {σ : Type}
    (core : ConverterFn → Handle → Handle → Handle × ob2_status_t)
    (self : image_format_converter) (source_image : image σ) (t : Trace) :
    Trace × Except Exn (image σ) :=
  self.call core .ob2_image_format_converter_rgb_to_bgr source_image t

/-- The method `image_format_converter::mjpg_to_i420(source_image)`. -/
def image_format_converter.mjpg_to_i420 {σ : Type}
    (core : ConverterFn → Handle → Handle → Handle × ob2_status_t)
    (self : image_format_converter) (source_image : image σ) (t : Trace) :
    Trace × Except Exn (image σ) :=
  self.call core .ob2_image_format_converter_mjpg_to_i420 source_image t

/-- The method `image_format_converter::mjpg_to_nv21(source_image)`. -/
def image_format_converter.mjpg_to_nv21 {σ : Type}
    (core : ConverterFn → Handle → Handle → Handle × ob2_status_t)
    (self : image_format_converter) (source_image : image σ) (t : Trace) :
    Trace × Except Exn (image σ) :=
  self.call core .ob2_image_format_converter_mjpg_to_nv21 source_image t

/-- The method `image_format_converter::mjpg_to_rgb(source_image)`. -/
def image_format_converter.mjpg_to_rgb {σ : Type}
    (core : ConverterFn → Handle → Handle → Handle × ob2_status_t)
    (self : image_format_converter) (source_image : image σ) (t : Trace) :
    Trace × Except Exn (image σ) :=
  self.call core .ob2_image_format_converter_mjpg_to_rgb source_image t

/-- The method `image_format_converter::mjpg_to_bgr(source_image)`. -/
def image_format_converter.mjpg_to_bgr {σ : Type}
    (core : ConverterFn → Handle → Handle → Handle × ob2_status_t)
    (self : image_format_converter) (source_image : image σ) (t : Trace) :
    Trace × Except Exn (image σ) :=
  self.call core .ob2_image_format_converter_mjpg_to_bgr source_image t

/-- The method `image_format_converter::mjpg_to_bgra(source_image)`. -/
def image_format_converter.mjpg_to_bgra {σ : Type}
    (core : ConverterFn → Handle → Handle → Handle × ob2_status_t)
    (self : image_format_converter) (source_image : image σ) (t : Trace) :
    Trace × Except Exn (image σ) :=
  self.call core .ob2_image_format_converter_mjpg_to_bgra source_image t

/-! ### Concrete objects for runs of the wrapper -/

/-- A device with the handle 5 as `device(ob2_device_t &&)` builds it. -/
def sample_device : device Unit := ⟨none, none, none, 5⟩

/-- A core for concrete runs: every camera type has two profiles, 640x480 and
1280x480 at 30 fps in MJPG, and no query fails. -/
def sample_profile_core : ProfileCore :=
  ⟨fun _ _ => (2, ⟨OB2_STATUS_OK, ""⟩),
   fun _ _ index => (⟨640 * (index + 1), 480, 30, OB2_FORMAT_MJPG⟩, ⟨OB2_STATUS_OK, ""⟩)⟩

/-! ## `hpp/OB2Camera.hpp`: `capture::get_color_image`; `hpp/OB2IMU.hpp`: stream switches -/

/-- The method `capture::get_color_image()`. The answer of
`ob2_capture_get_color_image(m_capture_handle, &status)`, the returned handle and
the status, is given by `core`; `nullptr` is returned as `none`. -/
def capture.get_color_image {σ : Type} (core : Handle → Handle × ob2_status_t) (self : capture) :
    Except Exn (Option (image σ)) := do
  let answer := core self.m_capture_handle
  let image_handle := answer.1
  let status := answer.2
  CHECK_OB2_STATUS_ERROR_THROW status
  if nullptr ≠ image_handle then
    let im ← image.from_handle image_handle
    pure (some im)
  else
    pure none

/-- The values of `ob2_enable_ctrl_t`: `OB2_DISABLE = 0`. -/
def OB2_DISABLE : Nat := 0
/-- The values of `ob2_enable_ctrl_t`: `OB2_ENABLE = 1`. -/
def OB2_ENABLE : Nat := 1

/-- The method `imu_config::enable_accel_stream()`; `core` gives the status that
the called function puts out. -/
def imu_config.enable_accel_stream (core : CoreCall → ob2_status_t) (self : imu_config)
    (t : Trace) : Trace × Except Exn Unit :=
  let status := core (.ob2_imu_config_enable_accel_stream self.m_imu_config_handle)
  (t ++ [.ob2_imu_config_enable_accel_stream self.m_imu_config_handle],
    CHECK_OB2_STATUS_ERROR_THROW status)

/-- The method `imu_config::disable_accel_stream()`. -/
def imu_config.disable_accel_stream (core : CoreCall → ob2_status_t) (self : imu_config)
    (t : Trace) : Trace × Except Exn Unit :=
  let status := core (.ob2_imu_config_disable_accel_stream self.m_imu_config_handle)
  (t ++ [.ob2_imu_config_disable_accel_stream self.m_imu_config_handle],
    CHECK_OB2_STATUS_ERROR_THROW status)

/-- The method `imu_config::enable_gyro_stream(ob2_enable_ctrl_t enable)`; the
body does not mention `enable`. -/
def imu_config.enable_gyro_stream (core : CoreCall → ob2_status_t) (self : imu_config)
    (_enable : Nat) (t : Trace) : Trace × Except Exn Unit :=
  let status := core (.ob2_imu_config_enable_gyro_stream self.m_imu_config_handle)
  (t ++ [.ob2_imu_config_enable_gyro_stream self.m_imu_config_handle],
    CHECK_OB2_STATUS_ERROR_THROW status)

/-- The method `imu_config::disable_gyro_stream(ob2_enable_ctrl_t enable)`; the
body does not mention `enable`. -/
def imu_config.disable_gyro_stream (core : CoreCall → ob2_status_t) (self : imu_config)
    (_enable : Nat) (t : Trace) : Trace × Except Exn Unit :=
  let status := core (.ob2_imu_config_disable_gyro_stream self.m_imu_config_handle)
  (t ++ [.ob2_imu_config_disable_gyro_stream self.m_imu_config_handle],
    CHECK_OB2_STATUS_ERROR_THROW status)

end ob2

/-! ## The parts of OpenCV used by the sample viewer -/

namespace cv

/-- Element types of a matrix that the viewer uses. -/
inductive MatType where
  | CV_8UC1
  | CV_8UC2
  | CV_8UC3
  | CV_16UC1
deriving DecidableEq, Repr

/-- A matrix `cv::Mat`: its shape, its element type and its elements in row
order (how the elements lie in memory is not modelled). -/
structure Mat where
  rows : Nat
  cols : Nat
  type : MatType
  data : List Nat
deriving DecidableEq, Repr

/-- The default-constructed matrix, `cv::Mat rstMat;`. -/
def Mat.blank : Mat := ⟨0, 0, .CV_8UC1, []⟩

/-- The method `cv::Mat::empty()`: no element. -/
def Mat.empty (m : Mat) : Bool := m.rows == 0 || m.cols == 0

/-- Conversion codes given to `cv::cvtColor` by the viewer. -/
inductive ColorConversionCode where
  | COLOR_YUV2BGR_YUYV
  | COLOR_YUV2BGR_NV12
  | COLOR_RGB2BGR
  | COLOR_GRAY2BGR
deriving DecidableEq, Repr

/-- The codecs of OpenCV that the viewer delegates to; they are outside the
repository and are arguments of the embedding: `cv::imdecode(m, 1)`,
`cv::cvtColor(m, m, code)` and `cv::applyColorMap(m, m, cv::COLORMAP_JET)`.
The last field is the floating-point scaling of the depth branch,
`m * a / (b / scale)` with a `float scale`, assigned back to the `CV_16UC1`
matrix `m`: the quotient `b / scale` is rounded to single precision and OpenCV
scales the elements in floating point, so the elements that result are not the
exact quotients; they are not computed here, a codec provides them. -/
structure Codec where
  imdecode : Mat → Mat
  cvtColor : Mat → ColorConversionCode → Mat
  applyColorMap : Mat → Mat
  mul_div_float : Mat → ℚ → ℚ → ℚ → Mat

/-- The function `cvRound`, rounding to the nearest integer, a tie going to the
even neighbour; the arithmetic is exact (rational numbers). -/
def cvRound (q : ℚ) : ℤ :=
  let f : ℤ := ⌊q⌋
  if q - f < 1 / 2 then f
  else if 1 / 2 < q - f then f + 1
  else if f % 2 = 0 then f
  else f + 1

/-- The cast `cv::saturate_cast<ushort>` of a scaled value: rounded, then kept
within `0..65535`. -/
def saturate_cast_ushort (q : ℚ) : Nat :=
  let r := cvRound q
  if r < 0 then 0 else if 65535 < r then 65535 else r.toNat

/-- The cast `cv::saturate_cast<uchar>` of a 16-bit value: any value greater
than 255 becomes 255. -/
def saturate_cast_uchar (v : Nat) : Nat :=
  if 255 < v then 255 else v

/-- The matrix expression `m * a / b` assigned to a `CV_16UC1` matrix, for
operands whose floating-point arithmetic is exact (`b` a power of two, the
products `p * a` below `2 ^ 24`): every element is scaled once, exactly, and
cast to 16 bits. -/
def Mat.mul_div (m : Mat) (a b : ℚ) : Mat :=
  { m with data := m.data.map (fun (p : Nat) => saturate_cast_ushort ((p : ℚ) * a / b)) }

/-- The call `m.convertTo(m, CV_8UC1)` on a `CV_16UC1` matrix. -/
def Mat.convertTo_8UC1 (m : Mat) : Mat :=
  { m with type := .CV_8UC1, data := m.data.map saturate_cast_uchar }

end cv

/-! ## The sample viewer: `CamerasStream.cpp` and `hpp/window.hpp` -/

namespace viewer

open ob2 cv

/-- What the accessors of one `ob2::image` return to the viewer (each is a
query of the core, taken to succeed): `get_size()`, `get_buffer()` (the elements
of the buffer), `get_source_camera_type()`, `get_format()`,
`get_width_pixels()`, `get_height_pixels()` and `get_value_scale()`. -/
structure Frame where
  get_size : Nat
  get_buffer : List Nat
  get_source_camera_type : Nat
  get_format : Nat
  get_width_pixels : Nat
  get_height_pixels : Nat
  get_value_scale : ℚ
deriving DecidableEq, Repr

/-- The 8-bit value that the IR Y16 branch of `processImages` computes for the
16-bit pixel `p`: `rstMat * 255 / 1024`, then `convertTo(rstMat, CV_8UC1)`. -/
def ir_intensity (p : Nat) : Nat :=
  saturate_cast_uchar (saturate_cast_ushort ((p : ℚ) * 255 / 1024))

/-- The body of the loop of `processImages` from `cv::Mat rstMat;` to the end of
the switch over camera type and format: the matrix `rstMat` for one image. -/
def decodeImage (cv : Codec) (im : Frame) : Mat :=
  let data := im.get_buffer
  let dataSize := im.get_size
  let cameraType := im.get_source_camera_type
  let format := im.get_format
  let width := im.get_width_pixels
  let height := im.get_height_pixels
  let rstMat := Mat.blank
  if cameraType = OB2_CAMERA_COLOR then
    if format = OB2_FORMAT_MJPG then
      let rstMat : Mat := ⟨1, dataSize, .CV_8UC1, data⟩
      cv.imdecode rstMat
    else if format = OB2_FORMAT_YUYV then
      let rstMat : Mat := ⟨height, width, .CV_8UC2, data⟩
      cv.cvtColor rstMat .COLOR_YUV2BGR_YUYV
    else if format = OB2_FORMAT_NV12 then
      let rstMat : Mat := ⟨height, width, .CV_8UC3, data⟩
      cv.cvtColor rstMat .COLOR_YUV2BGR_NV12
    else if format = OB2_FORMAT_RGB then
      let rstMat : Mat := ⟨height, width, .CV_8UC3, data⟩
      cv.cvtColor rstMat .COLOR_RGB2BGR
    else rstMat
  else if cameraType = OB2_CAMERA_DEPTH then
    if format = OB2_FORMAT_Y16 then
      let scale := im.get_value_scale
      let rstMat : Mat := ⟨height, width, .CV_16UC1, data⟩
      let rstMat := cv.mul_div_float rstMat 255 6000 scale
      let rstMat := rstMat.convertTo_8UC1
      cv.applyColorMap rstMat
    else rstMat
  else if cameraType = OB2_CAMERA_IR then
    if format = OB2_FORMAT_Y16 then
      let rstMat : Mat := ⟨height, width, .CV_16UC1, data⟩
      let rstMat := rstMat.mul_div 255 1024
      let rstMat := rstMat.convertTo_8UC1
      cv.cvtColor rstMat .COLOR_GRAY2BGR
    else if format = OB2_FORMAT_Y8 then
      let rstMat : Mat := ⟨height, width, .CV_8UC1, data⟩
      cv.cvtColor rstMat .COLOR_GRAY2BGR
    else if format = OB2_FORMAT_MJPG then
      let rstMat : Mat := ⟨1, dataSize, .CV_8UC1, data⟩
      cv.imdecode rstMat
    else rstMat
  else rstMat

/-- The loop `for(auto im: images)` of `processImages`, `mats` being the
vector filled so far; a null or short image leaves the loop (`break`). -/
def processImages.loop (cv : Codec) : List (Option Frame) → List Mat → List Mat
  | [], mats => mats
  | none :: _, mats => mats
  | some im :: rest, mats =>
    if im.get_size < 1024 then mats
    else
      let rstMat := decodeImage cv im
      if !rstMat.empty then processImages.loop cv rest (mats ++ [rstMat])
      else processImages.loop cv rest mats

/-- The function `processImages(images)` of `CamerasStream.cpp`, the same text as
`Window::processImages` of `hpp/window.hpp`; a null `shared_ptr` is `none`. -/
def processImages (cv : Codec) (images : List (Option Frame)) : List Mat :=
  processImages.loop cv images []

/-! ### Definitions used to state the properties of `processImages` -/

/-- A codec for concrete runs: `imdecode` yields a fixed 640 by 480 picture, the
colour conversion and the colormap keep shape and elements and yield three
channels, the scaling of a depth matrix keeps its shape. -/
def sampleCodec : Codec :=
  ⟨fun _ => ⟨480, 640, .CV_8UC3, [0]⟩, fun m _ => { m with type := .CV_8UC3 },
   fun m => { m with type := .CV_8UC3 }, fun m _ _ _ => m⟩

/-- An image the loop accepts and does not leave on: non-null, `get_size()` at
least 1024. -/
def usable : Option Frame → Bool
  | none => false
  | some im => decide (1024 ≤ im.get_size)

/-- The reading of `processImages` in the specification: every non-null image
of at least 1024 bytes is decoded, wherever it stands in the list, and the
non-empty results are returned in input order. -/
def processImages_spec (cv : Codec) (images : List (Option Frame)) : List Mat :=
  (((images.filterMap id).filter (fun im => decide (1024 ≤ im.get_size))).map
    (decodeImage cv)).filter (fun m => !m.empty)

/-- The pairs (camera type, format) that the specification lists as decoded. -/
def spec_pairs : List (Nat × Nat) :=
  [(OB2_CAMERA_COLOR, OB2_FORMAT_MJPG), (OB2_CAMERA_COLOR, OB2_FORMAT_YUYV),
   (OB2_CAMERA_COLOR, OB2_FORMAT_NV12), (OB2_CAMERA_COLOR, OB2_FORMAT_RGB),
   (OB2_CAMERA_DEPTH, OB2_FORMAT_Y16), (OB2_CAMERA_IR, OB2_FORMAT_Y16),
   (OB2_CAMERA_IR, OB2_FORMAT_Y8)]

/-- The pairs (camera type, format) that have a case in the switch of
`processImages`: those of the specification and IR with MJPG. -/
def code_pairs : List (Nat × Nat) :=
  spec_pairs ++ [(OB2_CAMERA_IR, OB2_FORMAT_MJPG)]

/-- An IR image in format Y8, 2 by 2 pixels, reported size 1024 bytes. -/
def ir_y8_frame : Frame :=
  { get_size := 1024, get_buffer := [1, 2, 3, 4], get_source_camera_type := OB2_CAMERA_IR,
    get_format := OB2_FORMAT_Y8, get_width_pixels := 2, get_height_pixels := 2,
    get_value_scale := 1 }

/-- An IR image in format MJPG, reported size 2000 bytes. -/
def ir_mjpg_frame : Frame :=
  { get_size := 2000, get_buffer := [255, 216, 255], get_source_camera_type := OB2_CAMERA_IR,
    get_format := OB2_FORMAT_MJPG, get_width_pixels := 2, get_height_pixels := 2,
    get_value_scale := 1 }

/-! ### `hpp/window.hpp`: the class `Window` -/

/-- The macro `ESC`, 27. -/
def ESC : Int := 27

/-- The enum `RenderType`. -/
inductive RenderType where
  | RENDER_SINGLE
  | RENDER_ONE_ROW
  | RENDER_ONE_COLUMN
  | RENDER_GRID
  | RENDER_OVERLAY
deriving DecidableEq, Repr

/-- The class `Window`. -/
structure Window where
  _name : String
  _width : Int
  _height : Int
  _windowClose : Bool
  _key : Int
deriving DecidableEq, Repr

/-- What a call of `render` does to the screen: it closes all windows
(`cv::destroyAllWindows()`), or it hands the decoded matrices to one of the two
`renderMats`. -/
inductive RenderCall where
  | destroyAllWindows
  | renderMats (mats : List Mat) (renderType : RenderType)
  | renderMats_alpha (mats : List Mat) (alpha : ℚ)
deriving DecidableEq, Repr

/-- The constructor `Window(name, width, height)`. -/
def Window.create (name : String) (width height : Int) : Window :=
  ⟨name, width, height, false, -1⟩

/-- The method `Window::resize(width, height)`. -/
def Window.resize (self : Window) (width height : Int) : Window :=
  { self with _width := width, _height := height }

/-- The method `Window::render(images, renderType)`; `key_read` is what
`cv::waitKey(10)` returns. The result is the window as it is left and what the
call did to the screen. -/
def Window.render (cv : Codec) (self : Window) (key_read : Int)
    (images : List (Option Frame)) (renderType : RenderType) : Window × List RenderCall :=
  let self := { self with _key := key_read }
  let self := if self._key = ESC then { self with _windowClose := true } else self
  if self._windowClose then
    (self, [.destroyAllWindows])
  else
    let mats := processImages cv images
    (self, [.renderMats mats renderType])

/-- The method `Window::render(images, alpha)`; `key_read` is what
`cv::waitKey(10)` returns. -/
def Window.render_alpha (cv : Codec) (self : Window) (key_read : Int)
    (images : List (Option Frame)) (alpha : ℚ) : Window × List RenderCall :=
  let self := { self with _key := key_read }
  let self := if self._key = ESC then { self with _windowClose := true } else self
  if self._windowClose then
    (self, [.destroyAllWindows])
  else
    let mats := processImages cv images
    (self, [.renderMats_alpha mats alpha])

/-- The method `Window::getKey()`. -/
def Window.getKey (self : Window) : Int := self._key

/-- The conversion `Window::operator bool()`. -/
def Window.operator_bool (self : Window) : Bool := !self._windowClose

/-- A call of a public method of `Window` that can change or show something. -/
inductive WindowOp where
  | resize (width height : Int)
  | render (key_read : Int) (images : List (Option Frame)) (renderType : RenderType)
  | render_alpha (key_read : Int) (images : List (Option Frame)) (alpha : ℚ)

/-- The window after one call, and what the call did to the screen. -/
def Window.apply (cv : Codec) (self : Window) : WindowOp → Window × List RenderCall
  | .resize width height => (self.resize width height, [])
  | .render key_read images renderType => self.render cv key_read images renderType
  | .render_alpha key_read images alpha => self.render_alpha cv key_read images alpha

/-- The window after a sequence of calls, and everything the calls did to the
screen, in order. -/
def Window.run (cv : Codec) : Window → List WindowOp → Window × List RenderCall
  | self, [] => (self, [])
  | self, op :: ops =>
    let r := self.apply cv op
    let rest := Window.run cv r.1 ops
    (rest.1, r.2 ++ rest.2)

/-! ### `hpp/window.hpp`: the layout of `RENDER_GRID` -/

/-- The cast `(int)x` of a floating-point value: the fraction is dropped. -/
def int_cast (x : ℚ) : Int := if 0 ≤ x then ⌊x⌋ else ⌈x⌉

/-- The layout computed in the branch `RENDER_GRID` of `renderMats`, as
(`cols`, `rows`). The value `sq` is what `1.0f / Q_rsqrt((float)count)` evaluates
to: `Q_rsqrt` reinterprets the bits of a `float` and is not embedded. The other
floating-point operations are exact here, and `0.01f` is one hundredth. -/
def grid_layout (count : Int) (sq : ℚ) : Int × Int :=
  let isq := int_cast sq
  let cols := if sq - isq < 1 / 100 then isq else isq + 1
  let div : ℚ := (count : ℚ) / (cols : ℚ)
  let idiv := int_cast div
  let rows := if div - idiv < 1 / 100 then idiv else idiv + 1
  (cols, rows)

/-- The image shown in the cell of row `i` and column `j` of the grid:
`index = i * cols + j`, the image `mats[index]` when `index < count`, and a
blank matrix (here `none`) otherwise. -/
def grid_cell (cols count i j : Int) : Option Int :=
  let index := i * cols + j
  if index < count then some index else none

/-! ### `CamerasStream.cpp`: the loop of `main` -/

/-- The character `'q'`. -/
def char_q : Int := 113
/-- The character `'Q'`. -/
def char_Q : Int := 81
/-- The character `'s'`. -/
def char_s : Int := 115

/-- The conversion of the `int` that `cv::waitKey` returns to the `char key`: the
low eight bits. -/
def to_char (k : Int) : Int := k % 256

/-- The file name built by `buff << "../imgs/" << count << ".jpg"`. -/
def image_path (count : Nat) : String :=
  "../imgs/" ++ toString count ++ ".jpg"

/-- The variables of `main` that live across iterations, `key` and `count`, and
the names of the files that `cv::imwrite` has written so far, oldest first. -/
structure ViewerState where
  key : Int
  count : Nat
  written : List String
deriving DecidableEq, Repr

/-- The loop `for (auto im : mats)` of `main`, from the matrix number `n` on.
For the `n`-th matrix shown, `ui n` gives what `cv::waitKey(22)` returns and
whether `cv::imwrite`, if it is called, succeeds. -/
def save_loop (s : ViewerState) : List Mat → (Nat → Int × Bool) → Nat → ViewerState
  | [], _, _ => s
  | _ :: rest, ui, n =>
    let key := to_char (ui n).1
    let s := { s with key := key }
    if char_q = key then s
    else if char_s = key then
      if !(ui n).2 then save_loop s rest ui (n + 1)
      else save_loop { s with count := s.count + 1, written := s.written ++ [image_path s.count] }
        rest ui (n + 1)
    else save_loop s rest ui (n + 1)

/-- What one iteration of the loop of `main` receives from outside: the answers
of the core to `ob2_device_get_capture` and `ob2_capture_get_color_image`, what
the accessors of the color image return, and the keys and write results of
`save_loop`. -/
structure IterationInput where
  capture_answer : Handle × ob2_status_t
  color_answer : Handle × ob2_status_t
  frame : Frame
  ui : Nat → Int × Bool

/-- How the first part of an iteration of `main` ends, from `get_capture` to
`processImages`: the `catch` of `std::runtime_error` was taken (`continue`),
another exception left the loop, a null `capture` pointer was dereferenced, or
the matrices were computed. -/
inductive Acquired where
  | timeout
  | thrown (e : Exn)
  | null_dereference
  | mats (l : List Mat)
deriving DecidableEq, Repr

/-- The first part of an iteration of `main`: `dev->get_capture(100)` inside the
`try`, then `capture->get_color_image()` and `processImages({color_image})`. -/
def acquire (cv : Codec) (dev : device Unit) (inp : IterationInput) : Acquired :=
  match dev.get_capture (fun _ _ => inp.capture_answer) 100 with
  | .error (.runtime_error _) => .timeout
  | .error e => .thrown e
  | .ok none => .null_dereference
  | .ok (some capture) =>
    match (capture.get_color_image (fun _ => inp.color_answer) : Except Exn (Option (image Unit))) with
    | .error e => .thrown e
    | .ok color_image => .mats (processImages cv [color_image.map (fun _ => inp.frame)])

/-- Where the loop of `main` stands after the inputs it was given. -/
inductive LoopStatus where
  | running
  | exited
  | thrown (e : Exn)
  | null_dereference
deriving DecidableEq, Repr

/-- The loop `do ... while (!('q' == key || 'Q' == key))` of `main`, run on the
inputs of its iterations for as long as there are inputs. -/
def main_loop (cv : Codec) (dev : device Unit) :
    ViewerState → List IterationInput → ViewerState × LoopStatus
  | s, [] => (s, .running)
  | s, inp :: rest =>
    match acquire cv dev inp with
    | .timeout =>
      if char_q = s.key ∨ char_Q = s.key then (s, .exited) else main_loop cv dev s rest
    | .thrown e => (s, .thrown e)
    | .null_dereference => (s, .null_dereference)
    | .mats l =>
      let s := save_loop s l inp.ui 0
      if char_q = s.key ∨ char_Q = s.key then (s, .exited) else main_loop cv dev s rest

/-- The state of `main` when the loop is entered: `char key = 0; int count = 0;`. -/
def ViewerState.initial : ViewerState := ⟨0, 0, []⟩

/-- An iteration in which the core times out: null capture handle, status
`OB2_STATUS_RUNTIME_ERROR`. -/
def timeout_input : IterationInput :=
  { capture_answer := (nullptr, ⟨OB2_STATUS_RUNTIME_ERROR, "timeout"⟩),
    color_answer := (nullptr, ⟨OB2_STATUS_OK, ""⟩),
    frame := ir_y8_frame, ui := fun _ => (-1, false) }

/-- An iteration in which the capture 7 holds no color image. -/
def null_color_input : IterationInput :=
  { capture_answer := (7, ⟨OB2_STATUS_OK, ""⟩),
    color_answer := (nullptr, ⟨OB2_STATUS_OK, ""⟩),
    frame := ir_y8_frame, ui := fun _ => (-1, false) }

/-- An iteration in which the capture 7 holds the color image 8, an MJPG image
of 2000 bytes; the key read is `key` and a write, if asked for, succeeds when
`write_ok` is true. -/
def color_input (key : Int) (write_ok : Bool) : IterationInput :=
  { capture_answer := (7, ⟨OB2_STATUS_OK, ""⟩),
    color_answer := (8, ⟨OB2_STATUS_OK, ""⟩),
    frame := { ir_mjpg_frame with get_source_camera_type := OB2_CAMERA_COLOR },
    ui := fun _ => (key, write_ok) }

/-- An iteration in which the core answers `ob2_device_get_capture` with a null
capture handle and a status of code 3, a code that is neither `OB2_STATUS_OK`
nor one of the three codes of the switch of `CHECK_OB2_STATUS_ERROR_THROW`. -/
def unlisted_status_input : IterationInput :=
  { capture_answer := (nullptr, ⟨3, "not ready"⟩),
    color_answer := (nullptr, ⟨OB2_STATUS_OK, ""⟩),
    frame := ir_y8_frame, ui := fun _ => (-1, false) }

/-- The files written are exactly those numbered below `count`, in order. -/
def numbered (s : ViewerState) : Prop :=
  s.written = (List.range s.count).map image_path

end viewer

/-! ## The calibrator: `Internal_cali.cpp` -/

/-! ## Binary floating-point values, as the calibrator computes with them -/

namespace ieee

/-- Rounding to the nearest integer, a tie going to the even neighbour. -/
def round_half_even (q : ℚ) : ℤ :=
  let f : ℤ := ⌊q⌋
  if q - f < 1 / 2 then f
  else if 1 / 2 < q - f then f + 1
  else if f % 2 = 0 then f
  else f + 1

/-- The binary floating-point number of `prec` significant bits that is nearest
to `q`, a tie going to the number whose last bit is 0 (the default rounding of
IEEE 754): with `2 ^ e ≤ |q| < 2 ^ (e + 1)` the numbers near `q` are the
multiples of `2 ^ (e + 1 - prec)`. The exponent is not bounded: overflow and
subnormal numbers are left out, the values rounded here lie between `2 ^ (-6)`
and 1. -/
def round_to (prec : Nat) (q : ℚ) : ℚ :=
  if q = 0 then 0
  else
    let e : ℤ := Int.log 2 |q|
    let ulp : ℚ := 2 ^ (e + 1 - prec)
    round_half_even (q / ulp) * ulp

/-- The value of type `double` (53 significant bits) that a literal or the
result of an operation on `double` values has, `q` being the exact value. -/
def to_double (q : ℚ) : ℚ := round_to 53 q

/-- The conversion of a `double` or `int` value to `float` (24 significant
bits). -/
def to_float (q : ℚ) : ℚ := round_to 24 q

end ieee

namespace calibrator

open cv ieee

/-- The macro `BOARD_COL`, 11. -/
def BOARD_COL : Nat := 11
/-- The macro `BOARD_ROW`, 8. -/
def BOARD_ROW : Nat := 8
/-- The macro `SIDE_LENGTH`, the literal `0.025` (metres) of type `double`. -/
def SIDE_LENGTH : ℚ := to_double (25 / 1000)

/-- A point `cv::Point3f`: three values of type `float`, each a rational
number. -/
abbrev Point3f := ℚ × ℚ × ℚ
/-- A point `cv::Point2f`: two values of type `float`, each a rational number. -/
abbrev Point2f := ℚ × ℚ

/-- The value that `cv::Point3f` stores for the argument `k * SIDE_LENGTH` with
an `int k`: the product is computed in `double` and the constructor converts it
to `float`. -/
def coordinate (k : Nat) : ℚ := to_float (to_double ((k : ℚ) * SIDE_LENGTH))

/-- The file name built by `buffer << "../imgs/" << count << ".jpg"`. -/
def image_path (count : Nat) : String :=
  "../imgs/" ++ toString count ++ ".jpg"

/-- The vector `obj_pt` after the two loops over `i < BOARD_ROW` and
`j < BOARD_COL` that push `cv::Point3f(i * SIDE_LENGTH, j * SIDE_LENGTH, 0)`. -/
def obj_pt : List Point3f :=
  (List.range BOARD_ROW).flatMap fun i =>
    (List.range BOARD_COL).map fun j => (coordinate i, coordinate j, to_float 0)

/-- The image directory as `cv::imread` sees it: `imread k` is the matrix read
for the file named `image_path k` (an empty matrix when the file is missing or
unreadable). Only finitely many files exist: no file numbered `bound` or higher
can be read. -/
structure Disk where
  imread : Nat → Mat
  bound : Nat
  missing : ∀ k, bound ≤ k → (imread k).empty = true

/-- The variables of `main` that the image loop changes, `count`, `im_points` and
`obj_points`, and the numbers of the files read with success so far. -/
structure CalibState where
  count : Nat
  im_points : List (List Point2f)
  obj_points : List (List Point3f)
  loaded : List Nat

/-- One iteration of the loop `while (1)`: the state after it and whether the loop
goes on (`false` after `break`). The file read is the one named
`image_path count`. `find` is `cv::findChessboardCornersSB` on an 11 by 8 board:
the corners when the board is found. Drawing and showing the image are left
out. -/
def iteration (disk : Disk) (find : Mat → Option (List Point2f)) (s : CalibState) :
    CalibState × Bool :=
  let number := s.count
  let im := disk.imread number
  let s := { s with count := s.count + 1 }
  if im.empty then (s, false)
  else
    let s := { s with loaded := s.loaded ++ [number] }
    match find im with
    | none => (s, true)
    | some corners =>
      ({ s with im_points := s.im_points ++ [corners], obj_points := s.obj_points ++ [obj_pt] },
        true)

/-- The loop `while (1)` of `main`, from the state `s` on. -/
def image_loop (disk : Disk) (find : Mat → Option (List Point2f)) (s : CalibState) :
    CalibState :=
  if h : (iteration disk find s).2 = true then
    image_loop disk find (iteration disk find s).1
  else (iteration disk find s).1
termination_by disk.bound - s.count
decreasing_by
  have hne : (disk.imread s.count).empty ≠ true := by
    intro he
    simp [iteration, he] at h
  have hlt : s.count < disk.bound := by
    by_contra hge
    exact hne (disk.missing s.count (by omega))
  have hcount : (iteration disk find s).1.count = s.count + 1 := by
    simp only [iteration]
    split
    · rfl
    · split <;> rfl
  rw [hcount]
  omega

/-- The state of `main` when the loop is entered. -/
def CalibState.initial : CalibState := ⟨0, [], [], []⟩

/-- The vectors of the calibrator agree with the images read: `im_points` holds
the corners of each image read in which the chessboard was found, in order, and
`obj_points` holds the grid `obj_pt` once for each entry of `im_points`. -/
def consistent (disk : Disk) (find : Mat → Option (List Point2f)) (s : CalibState) : Prop :=
  s.im_points = s.loaded.filterMap (fun k => find (disk.imread k)) ∧
  s.obj_points = s.im_points.map (fun _ => obj_pt)

/-- An image directory for concrete runs: the files 0, 1 and 2 can be read, as
matrices of one element, the file number. -/
def sample_disk : Disk :=
  { imread := fun k => if k < 3 then ⟨1, 1, .CV_8UC3, [k]⟩ else Mat.blank
    bound := 3
    missing := by
      intro k hk
      have : ¬ k < 3 := by omega
      simp [this, Mat.blank, Mat.empty] }

/-- A chessboard detector for concrete runs: the board is found in every image
but the one whose element is 1. -/
def sample_find : Mat → Option (List Point2f) := fun m =>
  if m.data = [1] then none else some [(0, 0)]

end calibrator

/-! ## Parts of the closed core that the headers only declare, modelled from the specification -/

namespace spec

open ob2

/-! ### Reference counting of a handle (`ob2_capture_reference`, `ob2_capture_release`,
`ob2_image_reference`, `ob2_image_release`) -/

/-- Modelled from the spec: the reference count kept by the core for one handle
(the functions `ob2_*_reference` and `ob2_*_release` are only declared in
`h/ob2camera.h`), and the number of times the destructor of the object has been
invoked so far. -/
structure RefCounted where
  count : Nat
  destructor_calls : Nat
deriving DecidableEq, Repr

/-- Modelled from the spec: the core's creation of a handle, "every
creation/acquisition operation returns a handle with reference count 1". -/
def RefCounted.create : RefCounted := ⟨1, 0⟩

/-- Modelled from the spec: the core's `add_ref`, "`add_ref(handle)`
increments". -/
def RefCounted.add_ref (r : RefCounted) : RefCounted :=
  { r with count := r.count + 1 }

/-- Modelled from the spec: the core's `release`, "`release(handle)` decrements
and, at 0, invokes the associated destructor"; "`release` on a handle whose
count is already 0 never double-frees". -/
def RefCounted.release (r : RefCounted) : RefCounted :=
  if r.count = 0 then r
  else if r.count - 1 = 0 then ⟨0, r.destructor_calls + 1⟩
  else { r with count := r.count - 1 }

/-! ### Stream profile registry (`ob2_cameras_config_set_and_enable_camera_stream`) -/

/-- Modelled from the spec: the failure of the core's profile matching,
`NotSupportedError`. -/
inductive MatchError where
  | NotSupportedError
deriving DecidableEq, Repr

/-- Modelled from the spec: the core's test that a profile of the registry
matches all non-fuzzy fields of a request; a field of the request that holds its
`ANY` sentinel is fuzzy. -/
def agrees (request p : ob2_camera_stream_profile_t) : Bool :=
  (request.width_pixels == OB2_ANY_WIDTH || request.width_pixels == p.width_pixels) &&
  (request.height_pixels == OB2_ANY_HEIGHT || request.height_pixels == p.height_pixels) &&
  (request.frame_rate == OB2_ANY_FRAME_RATE || request.frame_rate == p.frame_rate) &&
  (request.format == OB2_ANY_IAMGE_FORMAT || request.format == p.format)

/-- Modelled from the spec: the core's filling of a request, "fuzzy fields
(sentinel ANY/0) are filled from the first profile that matches". -/
def fill (request p : ob2_camera_stream_profile_t) : ob2_camera_stream_profile_t :=
  { width_pixels :=
      if request.width_pixels = OB2_ANY_WIDTH then p.width_pixels else request.width_pixels
    height_pixels :=
      if request.height_pixels = OB2_ANY_HEIGHT then p.height_pixels else request.height_pixels
    frame_rate :=
      if request.frame_rate = OB2_ANY_FRAME_RATE then p.frame_rate else request.frame_rate
    format := if request.format = OB2_ANY_IAMGE_FORMAT then p.format else request.format }

/-- Modelled from the spec: the core's search through the profiles of one camera
type, in the order of the list ("order = device-reported priority, first =
default"). -/
def match_in : List ob2_camera_stream_profile_t → ob2_camera_stream_profile_t →
    Except MatchError ob2_camera_stream_profile_t
  | [], _ => .error .NotSupportedError
  | p :: rest, request =>
    if agrees request p then .ok (fill request p) else match_in rest request

/-- Modelled from the spec: the core's `match(camera_type, width|ANY, height|ANY,
frame_rate|ANY, format|ANY)`; the registry gives the profiles of every camera
type the device supports and `none` for the others. It "fails with
`NotSupportedError` if no profile matches the non-fuzzy fields, or if
`camera_type` is unsupported by the device". -/
def match_profile (registry : Nat → Option (List ob2_camera_stream_profile_t))
    (camera_type : Nat) (request : ob2_camera_stream_profile_t) :
    Except MatchError ob2_camera_stream_profile_t :=
  match registry camera_type with
  | none => .error .NotSupportedError
  | some profiles => match_in profiles request

/-- The registry of the scenario of the specification: the Color camera has the
profiles 640x480 and 1280x720, both at 30 fps in MJPG. -/
def scenario_registry : Nat → Option (List ob2_camera_stream_profile_t) := fun camera_type =>
  if camera_type = OB2_CAMERA_COLOR then
    some [⟨640, 480, 30, OB2_FORMAT_MJPG⟩, ⟨1280, 720, 30, OB2_FORMAT_MJPG⟩]
  else none

/-! ### Capture synchronizer (configured through `cameras_config`) -/

/-- Modelled from the spec: the camera types of the three slots of a capture. -/
inductive CameraType where
  | Color
  | Depth
  | IR
deriving DecidableEq, Repr

/-- Modelled from the spec: the synchronization modes of the core
(`ob2_images_sync_mode_t`). -/
inductive SyncMode where
  | WAIT_LATER_COMER
  | DEVICE_TIMESTAMP_MATCH
deriving DecidableEq, Repr

/-- Modelled from the spec: the capture-generation policies of the core
(`ob2_produce_capture_policy_t`). -/
inductive Policy where
  | SYNC_IMAGES_ONLY
  | KEEP_COLOR_IMAGE
  | KEEP_ALL_IMAGES
deriving DecidableEq, Repr

/-- Modelled from the spec: a frame as the synchronizer of the core sees it: the
camera it comes from, its device timestamp in microseconds and its data. -/
structure Frame where
  camera : CameraType
  device_timestamp : Nat
  data : Nat
deriving DecidableEq, Repr

/-- Modelled from the spec: a capture of the core, "three slots, each optional";
the pending frames of the synchronizer have the same shape ("a FIFO of at most 1
pending frame" per slot). -/
structure Capture where
  color : Option Frame
  depth : Option Frame
  ir : Option Frame
deriving DecidableEq, Repr

/-- Modelled from the spec: the core's capture with no slot filled. -/
def Capture.none : Capture := ⟨.none, .none, .none⟩

/-- Modelled from the spec: the slot of a camera type in a capture of the core. -/
def Capture.slot (c : Capture) : CameraType → Option Frame
  | .Color => c.color
  | .Depth => c.depth
  | .IR => c.ir

/-- Modelled from the spec: the core's update of a pending slot on arrival,
"latest-wins: a new frame from a source overwrites its pending slot". -/
def Capture.put (c : Capture) (f : Frame) : Capture :=
  match f.camera with
  | .Color => { c with color := some f }
  | .Depth => { c with depth := some f }
  | .IR => { c with ir := some f }

/-- Modelled from the spec: the part of a `CamerasConfig` that the synchronizer
of the core reads: per camera the enabled flag and the frame rate of the chosen
profile, the synchronization mode and the capture-generation policy. -/
structure CamerasConfig where
  color_enabled : Bool
  depth_enabled : Bool
  ir_enabled : Bool
  color_frame_rate : Nat
  depth_frame_rate : Nat
  ir_frame_rate : Nat
  sync_mode : SyncMode
  policy : Policy
deriving DecidableEq, Repr

/-- Modelled from the spec: the enabled flag of a camera type in the core's
configuration. -/
def CamerasConfig.enabled (cfg : CamerasConfig) : CameraType → Bool
  | .Color => cfg.color_enabled
  | .Depth => cfg.depth_enabled
  | .IR => cfg.ir_enabled

/-- Modelled from the spec: the matching window of the core in microseconds,
"tolerance = 1/max(enabled frame rates)". -/
def CamerasConfig.tolerance (cfg : CamerasConfig) : Nat :=
  1000000 / max (if cfg.color_enabled then cfg.color_frame_rate else 0)
    (max (if cfg.depth_enabled then cfg.depth_frame_rate else 0)
      (if cfg.ir_enabled then cfg.ir_frame_rate else 0))

/-- Modelled from the spec: the core's test that two pending frames "fall within
one frame period of each other"; an empty slot matches anything. -/
def within (tolerance : Nat) : Option Frame → Option Frame → Bool
  | some a, some b =>
    decide (a.device_timestamp ≤ b.device_timestamp + tolerance) &&
    decide (b.device_timestamp ≤ a.device_timestamp + tolerance)
  | _, _ => true

/-- Modelled from the spec: the core's test that every enabled slot is filled. -/
def filled (cfg : CamerasConfig) (pending : Capture) : Bool :=
  (!cfg.color_enabled || pending.color.isSome) &&
  (!cfg.depth_enabled || pending.depth.isSome) &&
  (!cfg.ir_enabled || pending.ir.isSome)

/-- Modelled from the spec: the core's test that the pending frames are a
candidate capture: under `WAIT_LATER_COMER` "every enabled source's slot is now
filled", under `DEVICE_TIMESTAMP_MATCH` the timestamps must also match. -/
def complete (cfg : CamerasConfig) (pending : Capture) : Bool :=
  filled cfg pending &&
  (match cfg.sync_mode with
   | .WAIT_LATER_COMER => true
   | .DEVICE_TIMESTAMP_MATCH =>
     within cfg.tolerance pending.color pending.depth &&
     within cfg.tolerance pending.color pending.ir &&
     within cfg.tolerance pending.depth pending.ir)

/-- Modelled from the spec: the sources whose frames a capture-generation policy
of the core does not let go: none under `SYNC_IMAGES_ONLY` ("slow consumers
lose old frames"), Color under `KEEP_COLOR_IMAGE` ("ensures that color images
are not discarded ... while other camera images may be discarded"), every
source under `KEEP_ALL_IMAGES` ("never drop any received frame"). -/
def Policy.keeps : Policy → CameraType → Bool
  | .SYNC_IMAGES_ONLY, _ => false
  | .KEEP_COLOR_IMAGE, cam => decide (cam = .Color)
  | .KEEP_ALL_IMAGES, _ => true

/-- Modelled from the spec: what happens to the synchronizer of the core: a frame
arrives from a source, or the synchronization of the current round is found to
be impossible (a slot's frame is stale beyond the staleness window). -/
inductive Event where
  | frame_arrived (f : Frame)
  | sync_failed
deriving DecidableEq, Repr

/-- Modelled from the spec: the reaction of the core's synchronizer to one event:
the new pending slots and the capture emitted, if any.

* A frame of an enabled source overwrites its slot; when the slots are then
  complete they are drained into one capture ("atomically drain all slots into
  one Capture and emit it"). A frame of a source that is not enabled is ignored.
  The frame that was in the slot is given up under `SYNC_IMAGES_ONLY`; under a
  policy that keeps the frames of that source it leaves in a capture of its
  own, `displaced`, which `Synchronizer.step` emits first.
* When synchronization fails: `SYNC_IMAGES_ONLY` discards all pending slots and
  emits nothing; `KEEP_COLOR_IMAGE` emits the pending slots when the Color slot
  is filled ("a Capture containing at least the Color slot") and discards them
  otherwise; `KEEP_ALL_IMAGES` emits "whatever subset of slots is currently
  filled". -/
def react (cfg : CamerasConfig) (pending : Capture) : Event → Capture × Option Capture
  | .frame_arrived f =>
    if cfg.enabled f.camera then
      let pending := pending.put f
      if complete cfg pending then (Capture.none, some pending) else (pending, none)
    else (pending, none)
  | .sync_failed =>
    match cfg.policy with
    | .SYNC_IMAGES_ONLY => (Capture.none, none)
    | .KEEP_COLOR_IMAGE =>
      if pending.color.isSome then (Capture.none, some pending) else (Capture.none, none)
    | .KEEP_ALL_IMAGES =>
      if pending = Capture.none then (pending, none) else (Capture.none, some pending)

/-- Modelled from the spec: the capture by which the core's synchronizer lets a
pending frame go that the policy keeps, when a newer frame of the same enabled
source takes its slot: the round of the older frame can no longer be
synchronized, and the frame leaves in a capture that holds it alone ("only
some camera frames are used to generate captures when it is no longer possible
to synchronize all enabled camera frames"). Nothing is emitted when the slot
is empty or the policy does not keep the frames of that source. -/
def displaced (cfg : CamerasConfig) (pending : Capture) : Event → Option Capture
  | .frame_arrived f =>
    if cfg.enabled f.camera && cfg.policy.keeps f.camera then
      (pending.slot f.camera).map (fun older => Capture.none.put older)
    else none
  | .sync_failed => none

/-- Modelled from the spec: the state of the core's synchronizer while running:
the configuration, the pending slots and the captures emitted so far, oldest
first. -/
structure Synchronizer where
  config : CamerasConfig
  pending : Capture
  emitted : List Capture
deriving DecidableEq, Repr

/-- Modelled from the spec: one step of the core's synchronizer: the capture of
a displaced frame that the policy keeps, if there is one, is emitted before the
capture of the reaction. -/
def Synchronizer.step (s : Synchronizer) (e : Event) : Synchronizer :=
  let d := displaced s.config s.pending e
  let r := react s.config s.pending e
  { s with pending := r.1, emitted := s.emitted ++ d.toList ++ r.2.toList }

/-- Modelled from the spec: the core's synchronizer after `start()` with the
configuration `cfg` and the events `events`, in order. -/
def run (cfg : CamerasConfig) (events : List Event) : Synchronizer :=
  events.foldl Synchronizer.step ⟨cfg, Capture.none, []⟩

/-- The frame that the event brings on the source `cam`, or else the most recent
frame of that source so far. -/
def latest_after (cam : CameraType) (latest : Option Frame) : Event → Option Frame
  | .frame_arrived f => if f.camera = cam then some f else latest
  | .sync_failed => latest

/-- The most recent frame that arrived on the source `cam` among the events. -/
def latest_frame (cam : CameraType) (events : List Event) : Option Frame :=
  events.foldl (latest_after cam) none

/-- A configuration for concrete runs: Color and Depth enabled at 30 fps, IR
disabled, `WAIT_LATER_COMER`, with the given policy. -/
def color_depth_config (policy : Policy) : CamerasConfig :=
  { color_enabled := true, depth_enabled := true, ir_enabled := false,
    color_frame_rate := 30, depth_frame_rate := 30, ir_frame_rate := 0,
    sync_mode := .WAIT_LATER_COMER, policy := policy }

/-- A second Color frame, one frame period later. -/
def color_frame_2 : Frame := ⟨.Color, 33333, 102⟩

/-- A Depth frame, shortly after the second Color frame. -/
def depth_frame_1 : Frame := ⟨.Depth, 33400, 201⟩

end spec

/-! # Theorems -/

namespace cv

theorem floor_le_cvRound (q : ℚ) : ⌊q⌋ ≤ cvRound q := by
  simp only [cvRound]
  split_ifs <;> omega

theorem cvRound_le_floor_add_one (q : ℚ) : cvRound q ≤ ⌊q⌋ + 1 := by
  simp only [cvRound]
  split_ifs <;> omega

/-- Rounding is monotone. -/
theorem cvRound_mono {a b : ℚ} (h : a ≤ b) : cvRound a ≤ cvRound b := by
  have hf : ⌊a⌋ ≤ ⌊b⌋ := Int.floor_mono h
  rcases hf.lt_or_eq with hlt | heq
  · have h1 := cvRound_le_floor_add_one a
    have h2 := floor_le_cvRound b
    omega
  · simp only [cvRound]
    rw [heq]
    split_ifs <;> first | omega | (exfalso; linarith)

/-- An integer is its own rounding. -/
theorem cvRound_intCast (n : ℤ) : cvRound (n : ℚ) = n := by
  simp [cvRound]

theorem cvRound_nonneg {q : ℚ} (h : 0 ≤ q) : 0 ≤ cvRound q := by
  have := cvRound_mono h
  have h0 : cvRound (0 : ℚ) = 0 := by simpa using cvRound_intCast 0
  omega

theorem saturate_cast_ushort_mono {a b : ℚ} (h : a ≤ b) :
    saturate_cast_ushort a ≤ saturate_cast_ushort b := by
  have := cvRound_mono h
  simp only [saturate_cast_ushort]
  split_ifs <;> omega

theorem saturate_cast_uchar_mono {a b : Nat} (h : a ≤ b) :
    saturate_cast_uchar a ≤ saturate_cast_uchar b := by
  simp only [saturate_cast_uchar]
  split_ifs <;> omega

/-- The two casts in a row keep a non-negative value within `0..255`. -/
theorem saturate_casts_eq {q : ℚ} (h : 0 ≤ q) :
    ((saturate_cast_uchar (saturate_cast_ushort q) : Nat) : ℤ) = min 255 (max 0 (cvRound q)) := by
  have := cvRound_nonneg h
  simp only [saturate_cast_uchar, saturate_cast_ushort]
  split_ifs <;> omega

end cv

namespace ob2

/-- C1: for every status `s`, `CHECK_OB2_STATUS_ERROR_THROW(s)` throws
`std::logic_error` exactly when `s.code` is `OB2_STATUS_LOGIC_ERROR` (1),
`std::runtime_error` exactly when it is `OB2_STATUS_RUNTIME_ERROR` (2), the bare
message exactly when it is `OB2_STATUS_UNKNOWN_ERROR` (255), what is thrown
always carrying `s.message`; it never throws anything else, and it completes
without throwing for every other code, `OB2_STATUS_OK` (0) among them. -/
theorem CHECK_OB2_STATUS_ERROR_THROW_cases (s : ob2_status_t) :
    (∀ w, CHECK_OB2_STATUS_ERROR_THROW s = .error (.logic_error w) ↔
      (s.code = OB2_STATUS_LOGIC_ERROR ∧ w = s.message)) ∧
    (∀ w, CHECK_OB2_STATUS_ERROR_THROW s = .error (.runtime_error w) ↔
      (s.code = OB2_STATUS_RUNTIME_ERROR ∧ w = s.message)) ∧
    (∀ w, CHECK_OB2_STATUS_ERROR_THROW s = .error (.raw_message w) ↔
      (s.code = OB2_STATUS_UNKNOWN_ERROR ∧ w = s.message)) ∧
    CHECK_OB2_STATUS_ERROR_THROW s ≠ .error .bad_function_call ∧
    (CHECK_OB2_STATUS_ERROR_THROW s = .ok () ↔
      (s.code ≠ 1 ∧ s.code ≠ 2 ∧ s.code ≠ 255)) ∧
    CHECK_OB2_STATUS_ERROR_THROW ⟨OB2_STATUS_OK, s.message⟩ = .ok () := by
  simp only [CHECK_OB2_STATUS_ERROR_THROW, OB2_STATUS_LOGIC_ERROR, OB2_STATUS_RUNTIME_ERROR,
    OB2_STATUS_UNKNOWN_ERROR, OB2_STATUS_OK]
  refine ⟨?_, ?_, ?_, ?_, ?_, ?_⟩
  · intro w
    split_ifs <;> simp_all [eq_comm]
  · intro w
    split_ifs <;> simp_all [eq_comm]
  · intro w
    split_ifs <;> simp_all [eq_comm]
  · split_ifs <;> simp
  · split_ifs <;> simp_all
  · simp

theorem VALIDATE_NOT_NULL_ok {h : Handle} (hh : h ≠ nullptr) (arg : String) :
    VALIDATE_NOT_NULL h arg = .ok () := by
  simp [VALIDATE_NOT_NULL, hh]

theorem VALIDATE_NOT_NULL_null (arg : String) :
    VALIDATE_NOT_NULL nullptr arg = .error (.logic_error (null_message arg)) := by
  simp [VALIDATE_NOT_NULL]

/-- C7: `device::get_capture(timeout_msec)`, the core answering with the handle
`h` and the status `st`: when the status is `OB2_STATUS_RUNTIME_ERROR` (no
capture within the timeout) it throws `std::runtime_error` with the message of
the status and so returns no capture; when the status is `OB2_STATUS_OK` and
`h` is not null it returns a capture object whose handle is exactly `h`. -/
theorem device_get_capture_cases {σ : Type} (core : Handle → Int → Handle × ob2_status_t)
    (self : device σ) (timeout_msec : Int) (h : Handle) (st : ob2_status_t)
    (hcore : core self.m_device_handle timeout_msec = (h, st)) :
    (st.code = OB2_STATUS_RUNTIME_ERROR →
      self.get_capture core timeout_msec = .error (.runtime_error st.message)) ∧
    (st.code = OB2_STATUS_OK → h ≠ nullptr →
      ∃ cap : capture, self.get_capture core timeout_msec = .ok (some cap) ∧
        cap.get_handle = h) := by
  constructor
  · intro hst
    simp [device.get_capture, hcore, CHECK_OB2_STATUS_ERROR_THROW, hst,
      OB2_STATUS_RUNTIME_ERROR, OB2_STATUS_LOGIC_ERROR, bind, Except.bind]
  · intro hst hh
    refine ⟨⟨h⟩, ?_, rfl⟩
    simp [device.get_capture, hcore, CHECK_OB2_STATUS_ERROR_THROW, hst, OB2_STATUS_OK,
      OB2_STATUS_RUNTIME_ERROR, OB2_STATUS_LOGIC_ERROR, OB2_STATUS_UNKNOWN_ERROR,
      capture.from_handle, VALIDATE_NOT_NULL_ok hh, Ne.symm hh, bind, Except.bind, pure,
      Except.pure]

/-- Witness of C7: a core that times out with status 2, and a core that
succeeds with the handle 7. -/
theorem device_get_capture_cases_witness :
    (({ m_firmware_update_state_cb := none, m_capture_cb := none, m_imu_sample_cb := none,
        m_device_handle := 5 } : device Unit).get_capture
        (fun _ _ => (0, ⟨2, "timeout"⟩)) 100 = .error (.runtime_error "timeout")) ∧
    (∃ cap : capture,
      ({ m_firmware_update_state_cb := none, m_capture_cb := none, m_imu_sample_cb := none,
         m_device_handle := 5 } : device Unit).get_capture
        (fun _ _ => (7, ⟨0, ""⟩)) 100 = .ok (some cap) ∧ cap.get_handle = 7) :=
  ⟨(device_get_capture_cases (fun _ _ => (0, ⟨2, "timeout"⟩)) _ 100 0 ⟨2, "timeout"⟩ rfl).1 rfl,
   (device_get_capture_cases (fun _ _ => (7, ⟨0, ""⟩)) _ 100 7 ⟨0, ""⟩ rfl).2 rfl (by decide)⟩

/-- C8: for `cameras_config`, `image` and `capture`: an object built from a
non-null handle `h` releases `h` exactly once, when it is destroyed (the trace
grows by that one call); after move construction the source holds the null
handle and its destructor adds no call, the new object holds `h`, and destroying
both, in either order, releases `h` exactly once. -/
theorem handle_released_exactly_once {σ : Type} (h : Handle) (hh : h ≠ nullptr) (t : Trace) :
    (∃ o d s : cameras_config, cameras_config.from_handle h = .ok o ∧
      o.destroy t = t ++ [.ob2_cameras_config_release h] ∧
      (o.destroy []).count (.ob2_cameras_config_release h) = 1 ∧
      o.move = .ok (d, s) ∧ s.m_cameras_config_handle = nullptr ∧ s.destroy t = t ∧
      d.m_cameras_config_handle = h ∧
      d.destroy (s.destroy t) = t ++ [.ob2_cameras_config_release h] ∧
      s.destroy (d.destroy t) = t ++ [.ob2_cameras_config_release h] ∧
      (d.destroy (s.destroy [])).count (.ob2_cameras_config_release h) = 1) ∧
    (∃ o d s : image σ, image.from_handle h = .ok o ∧
      o.destroy t = t ++ [.ob2_image_release h] ∧
      (o.destroy []).count (.ob2_image_release h) = 1 ∧
      o.move = .ok (d, s) ∧ s.m_image_handle = nullptr ∧ s.destroy t = t ∧
      d.m_image_handle = h ∧
      d.destroy (s.destroy t) = t ++ [.ob2_image_release h] ∧
      s.destroy (d.destroy t) = t ++ [.ob2_image_release h] ∧
      (d.destroy (s.destroy [])).count (.ob2_image_release h) = 1) ∧
    (∃ o d s : capture, capture.from_handle h = .ok o ∧
      o.destroy t = t ++ [.ob2_capture_release h] ∧
      (o.destroy []).count (.ob2_capture_release h) = 1 ∧
      o.move = .ok (d, s) ∧ s.m_capture_handle = nullptr ∧ s.destroy t = t ∧
      d.m_capture_handle = h ∧
      d.destroy (s.destroy t) = t ++ [.ob2_capture_release h] ∧
      s.destroy (d.destroy t) = t ++ [.ob2_capture_release h] ∧
      (d.destroy (s.destroy [])).count (.ob2_capture_release h) = 1) := by
  have hv := fun arg => VALIDATE_NOT_NULL_ok hh arg
  refine ⟨⟨⟨h⟩, ⟨h⟩, ⟨nullptr⟩, ?_⟩, ⟨⟨h, none⟩, ⟨h, none⟩, ⟨nullptr, none⟩, ?_⟩,
    ⟨⟨h⟩, ⟨h⟩, ⟨nullptr⟩, ?_⟩⟩
  · simp [cameras_config.from_handle, cameras_config.move, cameras_config.destroy, hv, hh,
      bind, Except.bind, pure, Except.pure]
  · simp [image.from_handle, image.move, image.destroy, hv, hh,
      bind, Except.bind, pure, Except.pure]
  · simp [capture.from_handle, capture.move, capture.destroy, hv, hh, Ne.symm hh,
      bind, Except.bind, pure, Except.pure]

/-- Witness of C8 at the handle 7 and the empty trace. -/
theorem handle_released_exactly_once_witness :
    ∃ o d s : capture, capture.from_handle 7 = .ok o ∧
      o.destroy [] = [] ++ [.ob2_capture_release 7] ∧
      (o.destroy []).count (.ob2_capture_release 7) = 1 ∧
      o.move = .ok (d, s) ∧ s.m_capture_handle = nullptr ∧ s.destroy [] = [] ∧
      d.m_capture_handle = 7 ∧
      d.destroy (s.destroy []) = [] ++ [.ob2_capture_release 7] ∧
      s.destroy (d.destroy []) = [] ++ [.ob2_capture_release 7] ∧
      (d.destroy (s.destroy [])).count (.ob2_capture_release 7) = 1 :=
  (@handle_released_exactly_once Unit 7 (by decide) []).2.2

/-- C9: each of `cameras_config`, `image`, `capture`, `imu_config`, `imu_sample`
and `device` built from the null handle fails with `std::logic_error` (the text
of `VALIDATE_NOT_NULL`); built from a non-null handle `h` it succeeds and
`get_handle()` then returns `h`. -/
theorem from_handle_null_or_get_handle {σ : Type} (h : Handle) :
    (cameras_config.from_handle nullptr
        = .error (.logic_error (null_message "m_cameras_config_handle")) ∧
      (h ≠ nullptr → ∃ o, cameras_config.from_handle h = .ok o ∧ o.get_handle = h)) ∧
    ((image.from_handle nullptr : Except Exn (image σ))
        = .error (.logic_error (null_message "image_handle")) ∧
      (h ≠ nullptr → ∃ o : image σ, image.from_handle h = .ok o ∧ o.get_handle = h)) ∧
    (capture.from_handle nullptr = .error (.logic_error (null_message "capture_handle")) ∧
      (h ≠ nullptr → ∃ o, capture.from_handle h = .ok o ∧ o.get_handle = h)) ∧
    (imu_config.from_handle nullptr
        = .error (.logic_error (null_message "m_imu_config_handle")) ∧
      (h ≠ nullptr → ∃ o, imu_config.from_handle h = .ok o ∧ o.get_handle = h)) ∧
    (imu_sample.from_handle nullptr
        = .error (.logic_error (null_message "m_imu_sample_handle")) ∧
      (h ≠ nullptr → ∃ o, imu_sample.from_handle h = .ok o ∧ o.get_handle = h)) ∧
    ((device.from_handle nullptr : Except Exn (device σ))
        = .error (.logic_error (null_message "m_device_handle")) ∧
      (h ≠ nullptr → ∃ o : device σ, device.from_handle h = .ok o ∧ o.get_handle = h)) := by
  have hn := VALIDATE_NOT_NULL_null
  have hv := fun (hh : h ≠ nullptr) arg => VALIDATE_NOT_NULL_ok hh arg
  refine ⟨⟨?_, fun hh => ⟨⟨h⟩, ?_, rfl⟩⟩, ⟨?_, fun hh => ⟨⟨h, none⟩, ?_, rfl⟩⟩,
    ⟨?_, fun hh => ⟨⟨h⟩, ?_, rfl⟩⟩, ⟨?_, fun hh => ⟨⟨h⟩, ?_, rfl⟩⟩,
    ⟨?_, fun hh => ⟨⟨h⟩, ?_, rfl⟩⟩, ⟨?_, fun hh => ⟨⟨none, none, none, h⟩, ?_, rfl⟩⟩⟩
  all_goals
    simp [cameras_config.from_handle, image.from_handle, capture.from_handle,
      imu_config.from_handle, imu_sample.from_handle, device.from_handle, hn, hv, *,
      bind, Except.bind, pure, Except.pure]

/-- Witness of C9 at the handle 7, for `capture`. -/
theorem from_handle_null_or_get_handle_witness :
    ∃ o, capture.from_handle 7 = .ok o ∧ o.get_handle = 7 :=
  (@from_handle_null_or_get_handle Unit 7).2.2.1.2 (by decide)

/-- C10: an image built from a user buffer with the non-empty release callback
`cb`: whenever the core calls the registered `image::buffer_release_callback`
with the buffer pointer `b` and that image as user data, the effect on the user
state is that of `cb` called once with `b`. -/
theorem buffer_release_callback_forwards {σ : Type} (created : Handle × ob2_status_t)
    (cb : Nat → σ → σ) (im : image σ) (hctor : image.from_buffer created (some cb) = .ok im)
    (b : Nat) (s : σ) :
    image.buffer_release_callback b im s = .ok (cb b s) := by
  have hcb : im.m_buffer_release_cb = some cb := by
    simp only [image.from_buffer, bind, Except.bind, pure, Except.pure] at hctor
    split at hctor
    · cases hctor
    · cases hctor
      rfl
  simp [image.buffer_release_callback, hcb]

/-- Witness of C10: the callback logs the pointers it is given; after the core
releases the buffer 42 the log holds 42 once. -/
theorem buffer_release_callback_forwards_witness :
    image.buffer_release_callback 42
      (⟨3, some (fun b log => log ++ [b])⟩ : image (List Nat)) [] = .ok [42] :=
  buffer_release_callback_forwards (3, ⟨0, ""⟩) (fun b log => log ++ [b]) ⟨3, _⟩ rfl 42 []

end ob2

namespace viewer

open ob2 cv

theorem processImages_loop_eq (cv : Codec) (images : List (Option Frame)) (mats : List Mat) :
    processImages.loop cv images mats =
      mats ++ ((((images.takeWhile usable).filterMap id).map (decodeImage cv)).filter
        (fun m => !m.empty)) := by
  induction images generalizing mats with
  | nil => simp [processImages.loop]
  | cons o rest ih =>
    cases o with
    | none => simp [processImages.loop, usable]
    | some im =>
      by_cases hsz : im.get_size < 1024
      · have hnot : ¬ 1024 ≤ im.get_size := by omega
        simp [processImages.loop, usable, hsz, hnot]
      · have hle : 1024 ≤ im.get_size := by omega
        by_cases he : (decodeImage cv im).empty = true
        · simp [processImages.loop, usable, hsz, hle, he, ih]
        · simp [processImages.loop, usable, hsz, hle, he, ih]

theorem takeWhile_usable_append (pre post : List (Option Frame)) (bad : Option Frame)
    (hbad : usable bad = false) :
    (pre ++ bad :: post).takeWhile usable = pre.takeWhile usable := by
  induction pre with
  | nil => simp [List.takeWhile, hbad]
  | cons o rest ih =>
    by_cases ho : usable o = true
    · simp [List.takeWhile, ho, ih]
    · simp [List.takeWhile, ho]

/-- C2 (as the code has it): `processImages` decodes the images of the longest
prefix of the list in which every image is non-null and has at least 1024
bytes, and returns the non-empty results in input order; a null image or one
below 1024 bytes ends the loop, so it and every image after it contribute
nothing. -/
theorem processImages_stops_at_first_unusable (cv : Codec) (images : List (Option Frame)) :
    processImages cv images =
      ((((images.takeWhile usable).filterMap id).map (decodeImage cv)).filter
        (fun m => !m.empty)) ∧
    (∀ (pre post : List (Option Frame)) (bad : Option Frame), usable bad = false →
      processImages cv (pre ++ bad :: post) = processImages cv pre) := by
  refine ⟨by simp [processImages, processImages_loop_eq], ?_⟩
  intro pre post bad hbad
  simp [processImages, processImages_loop_eq, takeWhile_usable_append pre post bad hbad]

/-- Witness of C2: after a null image the IR image that follows is not decoded. -/
theorem processImages_stops_at_first_unusable_witness :
    processImages sampleCodec ([some ir_y8_frame] ++ none :: [some ir_y8_frame]) =
      processImages sampleCodec [some ir_y8_frame] :=
  (processImages_stops_at_first_unusable sampleCodec []).2 [some ir_y8_frame] [some ir_y8_frame]
    none rfl

/-- C2 fails as stated: for the list of a null image followed by a usable IR Y8
image the code returns nothing, while the stated behaviour returns the decoded
IR image. -/
theorem processImages_skip_counterexample :
    processImages sampleCodec [none, some ir_y8_frame] = [] ∧
    processImages_spec sampleCodec [none, some ir_y8_frame] = [⟨2, 2, .CV_8UC3, [1, 2, 3, 4]⟩] := by
  constructor
  · rfl
  · simp [processImages_spec, decodeImage, ir_y8_frame, sampleCodec, Mat.empty,
      OB2_CAMERA_IR, OB2_CAMERA_COLOR, OB2_CAMERA_DEPTH, OB2_FORMAT_Y8, OB2_FORMAT_Y16]

/-- An image whose pair (camera type, format) has no case in the switch leaves
`rstMat` as it was constructed, whatever the codecs are. -/
theorem decodeImage_blank_of_not_code_pair (cv : Codec) (im : Frame)
    (hpair : (im.get_source_camera_type, im.get_format) ∉ code_pairs) :
    decodeImage cv im = Mat.blank := by
  simp only [code_pairs, spec_pairs, List.mem_append, List.mem_cons, Prod.mk.injEq,
    List.mem_singleton, List.not_mem_nil, or_false, not_or, not_and] at hpair
  obtain ⟨⟨h1, h2, h3, h4, h5, h6, h7⟩, h8⟩ := hpair
  simp only [decodeImage]
  split_ifs <;> first | rfl | (exfalso; simp_all)

/-- C3 (as the code has it): for every image whose pair (camera type, format)
is none of Color+MJPG, Color+YUYV, Color+NV12, Color+RGB, Depth+Y16, IR+Y16,
IR+Y8 and IR+MJPG, the matrix of the image is the untouched empty `rstMat`
whatever the codecs are (none is called), and the image adds nothing to the
result: the output is that of the rest of the list when the image has at least
1024 bytes, and is empty when it has fewer. -/
theorem processImages_no_output_for_other_pairs (cv : Codec) (im : Frame)
    (hpair : (im.get_source_camera_type, im.get_format) ∉ code_pairs) :
    decodeImage cv im = Mat.blank ∧
    (decodeImage cv im).empty = true ∧
    processImages cv [some im] = [] ∧
    (∀ rest, processImages cv (some im :: rest) =
      if im.get_size < 1024 then [] else processImages cv rest) := by
  have hb := decodeImage_blank_of_not_code_pair cv im hpair
  refine ⟨hb, by rw [hb]; rfl, ?_, ?_⟩
  · by_cases hsz : im.get_size < 1024
    · simp [processImages, processImages.loop, hsz]
    · simp [processImages, processImages.loop, hsz, hb, Mat.blank, Mat.empty]
  · intro rest
    by_cases hsz : im.get_size < 1024
    · simp [processImages, processImages.loop, hsz]
    · simp [processImages, processImages.loop, hsz, hb, Mat.blank, Mat.empty]

/-- Witness of C3: a Depth image in format MJPG in front of an IR Y8 image. -/
theorem processImages_no_output_for_other_pairs_witness :
    processImages sampleCodec
      [some { ir_mjpg_frame with get_source_camera_type := OB2_CAMERA_DEPTH },
       some ir_y8_frame] =
      if ({ ir_mjpg_frame with get_source_camera_type := OB2_CAMERA_DEPTH } : Frame).get_size
          < 1024 then []
      else processImages sampleCodec [some ir_y8_frame] :=
  (processImages_no_output_for_other_pairs sampleCodec
    { ir_mjpg_frame with get_source_camera_type := OB2_CAMERA_DEPTH } (by decide)).2.2.2
    [some ir_y8_frame]

/-- C3 fails as stated: IR with MJPG is not among the seven listed pairs, yet
the code calls `cv::imdecode` for such an image and returns its result. -/
theorem processImages_ir_mjpg_counterexample :
    (ir_mjpg_frame.get_source_camera_type, ir_mjpg_frame.get_format) ∉ spec_pairs ∧
    decodeImage sampleCodec ir_mjpg_frame
      = sampleCodec.imdecode ⟨1, 2000, .CV_8UC1, [255, 216, 255]⟩ ∧
    processImages sampleCodec [some ir_mjpg_frame] = [⟨480, 640, .CV_8UC3, [0]⟩] := by
  refine ⟨by decide, rfl, rfl⟩

/-- What the IR Y16 branch hands to the grey-to-BGR conversion. -/
theorem decodeImage_ir_y16 (cv : Codec) (im : Frame)
    (hcam : im.get_source_camera_type = OB2_CAMERA_IR) (hfmt : im.get_format = OB2_FORMAT_Y16) :
    decodeImage cv im = cv.cvtColor ⟨im.get_height_pixels, im.get_width_pixels, .CV_8UC1,
      im.get_buffer.map ir_intensity⟩ .COLOR_GRAY2BGR := by
  unfold decodeImage
  simp only [hcam, hfmt]
  rw [if_neg (by decide : ¬ OB2_CAMERA_IR = OB2_CAMERA_COLOR),
    if_neg (by decide : ¬ OB2_CAMERA_IR = OB2_CAMERA_DEPTH)]
  simp only [if_true, Mat.mul_div, Mat.convertTo_8UC1, List.map_map]
  rfl

theorem ir_intensity_mono {p q : Nat} (hpq : p ≤ q) : ir_intensity p ≤ ir_intensity q := by
  apply saturate_cast_uchar_mono
  apply saturate_cast_ushort_mono
  have : (p : ℚ) ≤ q := by exact_mod_cast hpq
  linarith

/-- C6: for an IR Y16 image the matrix given to the grey-to-BGR conversion
holds for every pixel `p` the value `ir_intensity p`, and for `p` in
`0..65535` that value is `p * 255 / 1024` (exact arithmetic) rounded and brought
into `0..255`; it is 0 for `p = 0`, it is 255 for every `p ≥ 1024`, and it is
non-decreasing in `p`. -/
theorem ir_intensity_spec (p : Nat) (_hp : p ≤ 65535) :
    (∀ (cv : Codec) (im : Frame), im.get_source_camera_type = OB2_CAMERA_IR →
      im.get_format = OB2_FORMAT_Y16 →
      decodeImage cv im = cv.cvtColor ⟨im.get_height_pixels, im.get_width_pixels,
        .CV_8UC1, im.get_buffer.map ir_intensity⟩ .COLOR_GRAY2BGR) ∧
    ((ir_intensity p : Nat) : ℤ) = min 255 (max 0 (cvRound ((p : ℚ) * 255 / 1024))) ∧
    ir_intensity p ≤ 255 ∧
    ir_intensity 0 = 0 ∧
    (1024 ≤ p → ir_intensity p = 255) ∧
    (∀ q : Nat, p ≤ q → q ≤ 65535 → ir_intensity p ≤ ir_intensity q) := by
  have hnn : 0 ≤ (p : ℚ) * 255 / 1024 := by positivity
  have heq := saturate_casts_eq hnn
  refine ⟨fun cv im hcam hfmt => decodeImage_ir_y16 cv im hcam hfmt, heq, ?_, ?_, ?_, ?_⟩
  · have : ((ir_intensity p : Nat) : ℤ) ≤ 255 := by
      rw [show ((ir_intensity p : Nat) : ℤ) = _ from heq]
      exact min_le_left _ _
    exact_mod_cast this
  · simp [ir_intensity, saturate_cast_ushort, saturate_cast_uchar, cvRound]
  · intro hbig
    have hge : ((255 : ℤ) : ℚ) ≤ (p : ℚ) * 255 / 1024 := by
      have : (1024 : ℚ) ≤ p := by exact_mod_cast hbig
      push_cast
      linarith
    have hr := cvRound_mono hge
    rw [cvRound_intCast] at hr
    have : ((ir_intensity p : Nat) : ℤ) = 255 := by
      rw [show ((ir_intensity p : Nat) : ℤ) = _ from heq]
      omega
    exact_mod_cast this
  · intro q hpq _
    exact ir_intensity_mono hpq

/-- Witness of C6: the pixel 1024 is mapped to 255. -/
theorem ir_intensity_spec_witness : ir_intensity 1024 = 255 :=
  (ir_intensity_spec 1024 (by norm_num)).2.2.2.2.1 (by norm_num)

end viewer

namespace ob2

theorem profile_list_loop_ok {σ : Type} (core : ProfileCore) (self : device σ)
    (camera_type count : Nat)
    (hok : ∀ i, i < count → CHECK_OB2_STATUS_ERROR_THROW
      (core.ob2_device_get_camera_stream_profile self.m_device_handle camera_type i).2 = .ok ()) :
    ∀ (n index : Nat) (acc : List ob2_camera_stream_profile_t), n = count - index →
      device.get_camera_stream_profile_list.loop core self camera_type count index acc =
        .ok (acc ++ (List.range' index (count - index)).map (fun i =>
          (core.ob2_device_get_camera_stream_profile self.m_device_handle camera_type i).1)) := by
  intro n
  induction n with
  | zero =>
    intro index acc hn
    have hge : ¬ index < count := by omega
    rw [device.get_camera_stream_profile_list.loop, if_neg hge, ← hn]
    simp
  | succ k ih =>
    intro index acc hn
    have hlt : index < count := by omega
    rw [device.get_camera_stream_profile_list.loop, if_pos hlt]
    simp only [hok index hlt]
    rw [ih (index + 1) _ (by omega)]
    have hsplit : count - index = (count - (index + 1)) + 1 := by omega
    rw [hsplit, List.range'_succ]
    simp

theorem profile_list_loop_statuses {σ : Type} (core : ProfileCore) (self : device σ)
    (camera_type count : Nat) :
    ∀ (n index : Nat) (acc l : List ob2_camera_stream_profile_t), n = count - index →
      device.get_camera_stream_profile_list.loop core self camera_type count index acc = .ok l →
      ∀ i, index ≤ i → i < count → CHECK_OB2_STATUS_ERROR_THROW
        (core.ob2_device_get_camera_stream_profile self.m_device_handle camera_type i).2
          = .ok () := by
  intro n
  induction n with
  | zero =>
    intro index acc l hn _ i hi hic
    omega
  | succ k ih =>
    intro index acc l hn hl i hi hic
    have hlt : index < count := by omega
    rw [device.get_camera_stream_profile_list.loop, if_pos hlt] at hl
    cases hc : CHECK_OB2_STATUS_ERROR_THROW
        (core.ob2_device_get_camera_stream_profile self.m_device_handle camera_type index).2 with
    | error e => simp [hc] at hl
    | ok u =>
      simp only [hc] at hl
      rcases Nat.eq_or_lt_of_le hi with heq | hgt
      · rw [← heq]
        exact hc
      · exact ih (index + 1) _ l (by omega) hl i hgt hic

/-- C11: the core's profile queries being functions of device, camera type and
index, and `count` being the profile count the core reports for the camera
type: when no query fails, `get_camera_stream_profile_list` returns the
profiles of the indices `0..count-1` in index order; whenever it returns a list
`l`, `l` is that list, it has `count` elements, and, if `count` is at least 1,
`get_default_camera_stream_profile` returns the first element of `l`. -/
theorem default_profile_is_first_of_list {σ : Type} (core : ProfileCore) (self : device σ)
    (camera_type : Nat) :
    (CHECK_OB2_STATUS_ERROR_THROW
        (core.ob2_device_get_camera_stream_profile_count self.m_device_handle camera_type).2
          = .ok () →
      (∀ i, i < (core.ob2_device_get_camera_stream_profile_count
          self.m_device_handle camera_type).1 →
        CHECK_OB2_STATUS_ERROR_THROW
          (core.ob2_device_get_camera_stream_profile self.m_device_handle camera_type i).2
            = .ok ()) →
      self.get_camera_stream_profile_list core camera_type =
        .ok ((List.range (core.ob2_device_get_camera_stream_profile_count
            self.m_device_handle camera_type).1).map (fun i =>
          (core.ob2_device_get_camera_stream_profile self.m_device_handle camera_type i).1))) ∧
    (∀ l, self.get_camera_stream_profile_list core camera_type = .ok l →
      l = (List.range (core.ob2_device_get_camera_stream_profile_count
            self.m_device_handle camera_type).1).map (fun i =>
          (core.ob2_device_get_camera_stream_profile self.m_device_handle camera_type i).1) ∧
      l.length = (core.ob2_device_get_camera_stream_profile_count
            self.m_device_handle camera_type).1 ∧
      (0 < (core.ob2_device_get_camera_stream_profile_count
            self.m_device_handle camera_type).1 →
        ∃ p, l.head? = some p ∧
          self.get_default_camera_stream_profile core camera_type = .ok p)) := by
  have hloop := fun hok =>
    profile_list_loop_ok core self camera_type
      (core.ob2_device_get_camera_stream_profile_count self.m_device_handle camera_type).1 hok
      _ 0 [] rfl
  constructor
  · intro hcount hok
    simp only [device.get_camera_stream_profile_list, hcount, bind, Except.bind]
    rw [hloop hok]
    simp [List.range_eq_range']
  · intro l hl
    simp only [device.get_camera_stream_profile_list, bind, Except.bind] at hl
    cases hc : CHECK_OB2_STATUS_ERROR_THROW
        (core.ob2_device_get_camera_stream_profile_count self.m_device_handle camera_type).2 with
    | error e => simp [hc] at hl
    | ok u =>
      simp only [hc] at hl
      have hok := fun i hi =>
        profile_list_loop_statuses core self camera_type _ _ 0 [] l rfl hl i (Nat.zero_le i) hi
      rw [hloop hok] at hl
      have hl' : l = (List.range (core.ob2_device_get_camera_stream_profile_count
            self.m_device_handle camera_type).1).map (fun i =>
          (core.ob2_device_get_camera_stream_profile self.m_device_handle camera_type i).1) := by
        have := Except.ok.inj hl
        rw [← this]
        simp [List.range_eq_range']
      refine ⟨hl', by rw [hl']; simp, ?_⟩
      intro hpos
      refine ⟨(core.ob2_device_get_camera_stream_profile self.m_device_handle camera_type 0).1,
        ?_, ?_⟩
      · rw [hl']
        obtain ⟨k, hk⟩ := Nat.exists_eq_succ_of_ne_zero (Nat.pos_iff_ne_zero.mp hpos)
        rw [hk, List.range_succ_eq_map]
        simp
      · have h0 := hok 0 hpos
        simp [device.get_default_camera_stream_profile, OB2_DEFAULT_STREAM_PROFILE, h0, bind,
          Except.bind, pure, Except.pure]

/-- Witness of C11: a device with two profiles per camera type. -/
theorem default_profile_is_first_of_list_witness :
    sample_device.get_camera_stream_profile_list sample_profile_core OB2_CAMERA_COLOR =
      .ok [⟨640, 480, 30, OB2_FORMAT_MJPG⟩, ⟨1280, 480, 30, OB2_FORMAT_MJPG⟩] ∧
    ∃ p, [(⟨640, 480, 30, OB2_FORMAT_MJPG⟩ : ob2_camera_stream_profile_t),
        ⟨1280, 480, 30, OB2_FORMAT_MJPG⟩].head? = some p ∧
      sample_device.get_default_camera_stream_profile sample_profile_core OB2_CAMERA_COLOR
        = .ok p :=
  ⟨(default_profile_is_first_of_list sample_profile_core sample_device OB2_CAMERA_COLOR).1
      rfl (fun _ _ => rfl),
   ((default_profile_is_first_of_list sample_profile_core sample_device OB2_CAMERA_COLOR).2 _
      ((default_profile_is_first_of_list sample_profile_core sample_device OB2_CAMERA_COLOR).1
        rfl (fun _ _ => rfl))).2.2 (by decide)⟩

/-- C12: after `start_cameras_with_callback(cfg, cb)` with a non-empty `cb`
(whatever status the core puts out), an invocation of `device::capture_callback`
with a non-null capture handle `h` and the device as user data has the effect
of `cb` called once, within that invocation, with a capture object whose handle
is `h`; that object owns `h`: destroying it releases `h` exactly once. -/
theorem capture_callback_forwards {σ : Type} (core : Handle → Handle → ob2_status_t)
    (self : device σ) (cam_config : Option cameras_config) (cb : capture → σ → σ) (t : Trace)
    (h : Handle) (hh : h ≠ nullptr) (s : σ) :
    ∃ cap : capture,
      device.capture_callback h (self.start_cameras_with_callback core cam_config (some cb) t).1 s
        = .ok (cb cap s) ∧
      cap.get_handle = h ∧
      (∀ t', cap.destroy t' = t' ++ [.ob2_capture_release h]) ∧
      (cap.destroy []).count (.ob2_capture_release h) = 1 := by
  refine ⟨⟨h⟩, ?_, rfl, ?_, ?_⟩
  · simp [device.capture_callback, device.start_cameras_with_callback, capture.from_handle,
      VALIDATE_NOT_NULL_ok hh, bind, Except.bind, pure, Except.pure]
  · intro t'
    simp [capture.destroy, Ne.symm hh]
  · simp [capture.destroy, Ne.symm hh]

/-- Witness of C12: the callback logs the handles of the captures it is given;
after the core delivers the capture 7 the log holds 7 once. -/
theorem capture_callback_forwards_witness :
    ∃ cap : capture,
      device.capture_callback 7
        ((⟨none, none, none, 5⟩ : device (List Handle)).start_cameras_with_callback
          (fun _ _ => ⟨OB2_STATUS_OK, ""⟩) none
          (some (fun c log => log ++ [c.get_handle])) []).1 []
        = .ok ((fun (c : capture) (log : List Handle) => log ++ [c.get_handle]) cap []) ∧
      cap.get_handle = 7 ∧
      (∀ t', cap.destroy t' = t' ++ [.ob2_capture_release 7]) ∧
      (cap.destroy []).count (.ob2_capture_release 7) = 1 :=
  capture_callback_forwards (fun _ _ => ⟨OB2_STATUS_OK, ""⟩) ⟨none, none, none, 5⟩ none
    (fun c log => log ++ [c.get_handle]) [] 7 (by decide) []

/-- C13: `device::start_cameras(cfg)` makes exactly one call into the core,
`ob2_device_start_cameras`, with `OB2_DEFAULT_CAMERAS_CONFIG` (the null handle)
when `cfg` is null and with exactly the handle of `cfg` otherwise; it makes no
release call, and `cfg`, which it only reads, still releases its handle exactly
once when it is destroyed afterwards. -/
theorem start_cameras_passes_handle {σ : Type} (core : Handle → Handle → ob2_status_t)
    (self : device σ) (t : Trace) :
    OB2_DEFAULT_CAMERAS_CONFIG = nullptr ∧
    (self.start_cameras core none t).1 =
      t ++ [.ob2_device_start_cameras self.m_device_handle OB2_DEFAULT_CAMERAS_CONFIG] ∧
    (∀ cfg : cameras_config,
      (self.start_cameras core (some cfg) t).1 =
        t ++ [.ob2_device_start_cameras self.m_device_handle cfg.m_cameras_config_handle] ∧
      (∀ h, CoreCall.ob2_cameras_config_release h ∈ (self.start_cameras core (some cfg) t).1 →
        CoreCall.ob2_cameras_config_release h ∈ t) ∧
      (cfg.m_cameras_config_handle ≠ nullptr →
        cfg.destroy (self.start_cameras core (some cfg) t).1 =
          (self.start_cameras core (some cfg) t).1 ++
            [.ob2_cameras_config_release cfg.m_cameras_config_handle] ∧
        (cfg.destroy (self.start_cameras core (some cfg) []).1).count
          (.ob2_cameras_config_release cfg.m_cameras_config_handle) = 1)) := by
  refine ⟨rfl, rfl, fun cfg => ⟨rfl, ?_, ?_⟩⟩
  · intro h hmem
    simpa [device.start_cameras] using hmem
  · intro hne
    simp [device.start_cameras, cameras_config.destroy, cameras_config.get_handle, hne]

/-- Witness of C13: the device 5 started with the config of handle 3. -/
theorem start_cameras_passes_handle_witness :
    (⟨3⟩ : cameras_config).destroy (sample_device.start_cameras
        (fun _ _ => ⟨OB2_STATUS_OK, ""⟩) (some ⟨3⟩) []).1 =
      (sample_device.start_cameras (fun _ _ => ⟨OB2_STATUS_OK, ""⟩) (some ⟨3⟩) []).1 ++
        [.ob2_cameras_config_release 3] ∧
    ((⟨3⟩ : cameras_config).destroy (sample_device.start_cameras
        (fun _ _ => ⟨OB2_STATUS_OK, ""⟩) (some ⟨3⟩) []).1).count
      (.ob2_cameras_config_release 3) = 1 :=
  ((start_cameras_passes_handle (fun _ _ => ⟨OB2_STATUS_OK, ""⟩) sample_device []).2.2 ⟨3⟩).2.2
    (by decide)

/-- C14 (the code differs): `image_format_converter::i420_to_rgb` and
`image_format_converter::nv21_to_rgb` do not call the core function of their
name: for every converter and source image the one call each of them makes is
`ob2_image_format_converter_uyvy_to_rgb`, so that each returns what
`uyvy_to_rgb` returns. -/
theorem i420_and_nv21_call_uyvy {σ : Type}
    (core : ConverterFn → Handle → Handle → Handle × ob2_status_t)
    (self : image_format_converter) (source_image : image σ) (t : Trace) :
    (self.i420_to_rgb core source_image t).1 =
      t ++ [.ob2_image_format_converter .ob2_image_format_converter_uyvy_to_rgb
        self.m_converter_handle source_image.m_image_handle] ∧
    (self.nv21_to_rgb core source_image t).1 =
      t ++ [.ob2_image_format_converter .ob2_image_format_converter_uyvy_to_rgb
        self.m_converter_handle source_image.m_image_handle] ∧
    CoreCall.ob2_image_format_converter .ob2_image_format_converter_i420_to_rgb
        self.m_converter_handle source_image.m_image_handle ∉
      (self.i420_to_rgb core source_image []).1 ∧
    CoreCall.ob2_image_format_converter .ob2_image_format_converter_nv21_to_rgb
        self.m_converter_handle source_image.m_image_handle ∉
      (self.nv21_to_rgb core source_image []).1 ∧
    self.i420_to_rgb core source_image t = self.uyvy_to_rgb core source_image t ∧
    self.nv21_to_rgb core source_image t = self.uyvy_to_rgb core source_image t := by
  refine ⟨rfl, rfl, ?_, ?_, rfl, rfl⟩ <;>
    simp [image_format_converter.i420_to_rgb, image_format_converter.nv21_to_rgb,
      image_format_converter.call]

/-- C15 (the code differs): `device::update_firmware(path, callback, mode)`
assigns no member of the device, so the callback is not stored: for a device
as its constructor builds it, a notification that the core delivers to
`device::firmware_update_state_callback` after `update_firmware` leaves the
user state as it is, that is `callback` is not called. -/
theorem update_firmware_drops_callback {σ : Type} (status : ob2_status_t) (self : device σ)
    (h : Handle) (path : String) (callback : Int → String → Nat → σ → σ) (mode : Nat)
    (state : Int) (message : String) (percent : Nat) (s : σ) :
    (self.update_firmware status path (some callback) mode).1 = self ∧
    (device.from_handle h : Except Exn (device σ)).toOption.all
      (fun dev => dev.m_firmware_update_state_cb.isNone) = true ∧
    device.firmware_update_state_callback state message percent
      ((⟨none, none, none, h⟩ : device σ).update_firmware status path (some callback) mode).1 s
        = s := by
  refine ⟨rfl, ?_, rfl⟩
  by_cases hh : h = nullptr
  · subst hh
    simp [device.from_handle, VALIDATE_NOT_NULL_null, bind, Except.bind, Except.toOption]
  · simp [device.from_handle, VALIDATE_NOT_NULL_ok hh, bind, Except.bind, pure, Except.pure,
      Except.toOption]

end ob2

namespace spec

open ob2

theorem add_ref_iterate (N c d : Nat) :
    RefCounted.add_ref^[N] ⟨c, d⟩ = ⟨c + N, d⟩ := by
  induction N generalizing c with
  | zero => rfl
  | succ n ih =>
    rw [Function.iterate_succ_apply]
    simp only [RefCounted.add_ref]
    rw [ih]
    congr 1
    omega

theorem release_iterate_above (m k d : Nat) :
    RefCounted.release^[m] ⟨m + (k + 1), d⟩ = ⟨k + 1, d⟩ := by
  induction m with
  | zero => simp
  | succ n ih =>
    rw [Function.iterate_succ_apply]
    have : RefCounted.release ⟨n + 1 + (k + 1), d⟩ = ⟨n + (k + 1), d⟩ := by
      simp only [RefCounted.release]
      rw [if_neg (by omega), if_neg (by omega)]
      congr 1
      omega
    rw [this, ih]

theorem release_iterate_zero (k d : Nat) :
    RefCounted.release^[k] ⟨0, d⟩ = ⟨0, d⟩ := by
  induction k with
  | zero => rfl
  | succ n ih =>
    rw [Function.iterate_succ_apply]
    simpa [RefCounted.release] using ih

/-- C19 (as the model has it): a handle is created with count 1; after `add_ref`
is applied `N` times and `release` `N` times the count is 1 again and the
destructor has not been invoked; the next release, the one that pairs with the
creation, brings the count to 0 and invokes the destructor; after any number of
further releases the destructor has still been invoked exactly once, and a
release applied at count 0 changes nothing. -/
theorem refcount_destructor_once (N k : Nat) :
    RefCounted.release^[N] (RefCounted.add_ref^[N] RefCounted.create) = ⟨1, 0⟩ ∧
    RefCounted.release^[N + 1] (RefCounted.add_ref^[N] RefCounted.create) = ⟨0, 1⟩ ∧
    (RefCounted.release^[N + 1 + k]
      (RefCounted.add_ref^[N] RefCounted.create)).destructor_calls = 1 ∧
    (∀ d, RefCounted.release ⟨0, d⟩ = ⟨0, d⟩) := by
  have hN : RefCounted.release^[N] (RefCounted.add_ref^[N] RefCounted.create) = ⟨1, 0⟩ := by
    rw [RefCounted.create, add_ref_iterate]
    have := release_iterate_above N 0 0
    simpa [Nat.add_comm] using this
  have hN1 : RefCounted.release^[N + 1] (RefCounted.add_ref^[N] RefCounted.create) = ⟨0, 1⟩ := by
    rw [Function.iterate_succ_apply', hN]
    rfl
  refine ⟨hN, hN1, ?_, fun d => by simp [RefCounted.release]⟩
  rw [Nat.add_comm (N + 1) k, Function.iterate_add_apply, hN1, release_iterate_zero]

/-- C19 fails as stated: after one `add_ref` and one `release` on a fresh handle
the count is 1 and the destructor has not been invoked, not invoked once. -/
theorem refcount_balanced_counterexample :
    RefCounted.release^[1] (RefCounted.add_ref^[1] RefCounted.create) = ⟨1, 0⟩ ∧
    (RefCounted.release^[1] (RefCounted.add_ref^[1] RefCounted.create)).destructor_calls ≠ 1 := by
  decide

theorem fill_of_agrees (request p : ob2_camera_stream_profile_t) (h : agrees request p = true) :
    fill request p = p := by
  obtain ⟨w, ht, r, f⟩ := p
  simp only [agrees, Bool.and_eq_true, Bool.or_eq_true, beq_iff_eq] at h
  obtain ⟨⟨⟨hw, hh⟩, hr⟩, hf⟩ := h
  simp only [fill, ob2_camera_stream_profile_t.mk.injEq]
  refine ⟨?_, ?_, ?_, ?_⟩
  · rcases hw with hw | hw <;> simp [hw]
  · rcases hh with hh | hh <;> simp [hh]
  · rcases hr with hr | hr <;> simp [hr]
  · rcases hf with hf | hf <;> simp [hf]

theorem match_in_ok_iff (profiles : List ob2_camera_stream_profile_t)
    (request p : ob2_camera_stream_profile_t) :
    match_in profiles request = .ok p ↔
      ∃ pre post, profiles = pre ++ p :: post ∧ agrees request p = true ∧
        ∀ q ∈ pre, agrees request q = false := by
  induction profiles with
  | nil => simp [match_in]
  | cons a rest ih =>
    by_cases ha : agrees request a = true
    · simp only [match_in, ha, if_true, fill_of_agrees request a ha]
      constructor
      · intro h
        cases h
        exact ⟨[], rest, rfl, ha, by simp⟩
      · rintro ⟨pre, post, hl, _, hpre⟩
        cases pre with
        | nil =>
          simp only [List.nil_append, List.cons.injEq] at hl
          rw [hl.1]
        | cons b pre' =>
          simp only [List.cons_append, List.cons.injEq] at hl
          have := hpre b (by simp)
          rw [← hl.1, ha] at this
          cases this
    · have ha' : agrees request a = false := by simpa using ha
      simp only [match_in, ha', Bool.false_eq_true, if_false]
      rw [ih]
      constructor
      · rintro ⟨pre, post, hl, hp, hpre⟩
        refine ⟨a :: pre, post, by simp [hl], hp, ?_⟩
        intro q hq
        rcases List.mem_cons.mp hq with hqa | hq'
        · rw [hqa]
          exact ha'
        · exact hpre q hq'
      · rintro ⟨pre, post, hl, hp, hpre⟩
        cases pre with
        | nil =>
          simp only [List.nil_append, List.cons.injEq] at hl
          rw [← hl.1, ha'] at hp
          cases hp
        | cons b pre' =>
          simp only [List.cons_append, List.cons.injEq] at hl
          exact ⟨pre', post, hl.2, hp, fun q hq => hpre q (by simp [hq])⟩

theorem match_in_error_iff (profiles : List ob2_camera_stream_profile_t)
    (request : ob2_camera_stream_profile_t) :
    match_in profiles request = .error .NotSupportedError ↔
      ∀ q ∈ profiles, agrees request q = false := by
  induction profiles with
  | nil => simp [match_in]
  | cons a rest ih =>
    by_cases ha : agrees request a = true
    · simp [match_in, ha]
    · have ha' : agrees request a = false := by simpa using ha
      simp [match_in, ha', ih]

/-- C20: for a camera type with the profile list `profiles` in the registry and
every request (a field holding its `ANY` sentinel being fuzzy), `match` returns
the profile `p` exactly when `p` is the first profile of the list that agrees
with all non-fuzzy fields of the request, so it returns a single profile and
not an error whenever some profile agrees; it fails with `NotSupportedError`
exactly when no profile of the list agrees. -/
theorem fuzzy_match_returns_first (registry : Nat → Option (List ob2_camera_stream_profile_t))
    (camera_type : Nat) (profiles : List ob2_camera_stream_profile_t)
    (request : ob2_camera_stream_profile_t) (hreg : registry camera_type = some profiles) :
    (∀ p, match_profile registry camera_type request = .ok p ↔
      ∃ pre post, profiles = pre ++ p :: post ∧ agrees request p = true ∧
        ∀ q ∈ pre, agrees request q = false) ∧
    (match_profile registry camera_type request = .error .NotSupportedError ↔
      ∀ q ∈ profiles, agrees request q = false) ∧
    ((∃ q ∈ profiles, agrees request q = true) →
      ∃ p ∈ profiles, match_profile registry camera_type request = .ok p) := by
  have hm : match_profile registry camera_type request = match_in profiles request := by
    simp [match_profile, hreg]
  refine ⟨fun p => by rw [hm]; exact match_in_ok_iff profiles request p,
    by rw [hm]; exact match_in_error_iff profiles request, ?_⟩
  rintro ⟨q, hq, hqa⟩
  rw [hm]
  cases hres : match_in profiles request with
  | ok p =>
    obtain ⟨pre, post, hl, _, _⟩ := (match_in_ok_iff profiles request p).mp hres
    exact ⟨p, by simp [hl], rfl⟩
  | error e =>
    cases e
    have := (match_in_error_iff profiles request).mp hres q hq
    rw [hqa] at this
    cases this

/-- Witness of C20, the scenario of the specification: the request
(COLOR, ANY, ANY, 30, MJPG) against the profiles 640x480 and 1280x720, both at
30 fps in MJPG, returns the first one. -/
theorem fuzzy_match_returns_first_witness :
    match_profile scenario_registry OB2_CAMERA_COLOR
      ⟨OB2_ANY_WIDTH, OB2_ANY_HEIGHT, 30, OB2_FORMAT_MJPG⟩ = .ok ⟨640, 480, 30, OB2_FORMAT_MJPG⟩ :=
  ((fuzzy_match_returns_first scenario_registry OB2_CAMERA_COLOR
      [⟨640, 480, 30, OB2_FORMAT_MJPG⟩, ⟨1280, 720, 30, OB2_FORMAT_MJPG⟩]
      ⟨OB2_ANY_WIDTH, OB2_ANY_HEIGHT, 30, OB2_FORMAT_MJPG⟩ rfl).1 _).mpr
    ⟨[], [⟨1280, 720, 30, OB2_FORMAT_MJPG⟩], rfl, by decide, by simp⟩

theorem run_append (cfg : CamerasConfig) (events : List Event) (e : Event) :
    run cfg (events ++ [e]) = (run cfg events).step e := by
  simp [run, List.foldl_append]

theorem run_config (cfg : CamerasConfig) (events : List Event) :
    (run cfg events).config = cfg := by
  induction events using List.reverseRecOn with
  | nil => rfl
  | append_singleton evs e ih =>
    rw [run_append]
    simpa [Synchronizer.step] using ih

theorem run_emitted_append (cfg : CamerasConfig) (events : List Event) (e : Event) :
    (run cfg (events ++ [e])).emitted =
      (run cfg events).emitted ++ (displaced cfg (run cfg events).pending e).toList ++
        (react cfg (run cfg events).pending e).2.toList := by
  rw [run_append]
  simp [Synchronizer.step, run_config]

theorem displaced_sync_images_only (cfg : CamerasConfig)
    (hpolicy : cfg.policy = .SYNC_IMAGES_ONLY) (pending : Capture) (e : Event) :
    displaced cfg pending e = none := by
  cases e <;> simp [displaced, hpolicy, Policy.keeps]

theorem run_pending_append (cfg : CamerasConfig) (events : List Event) (e : Event) :
    (run cfg (events ++ [e])).pending = (react cfg (run cfg events).pending e).1 := by
  rw [run_append]
  simp [Synchronizer.step, run_config]

theorem latest_frame_append (cam : CameraType) (events : List Event) (e : Event) :
    latest_frame cam (events ++ [e]) = latest_after cam (latest_frame cam events) e := by
  simp [latest_frame, List.foldl_append]

theorem filled_slot (cfg : CamerasConfig) (c : Capture) (h : filled cfg c = true)
    (cam : CameraType) (hcam : cfg.enabled cam = true) : (c.slot cam).isSome = true := by
  simp only [filled, Bool.and_eq_true, Bool.or_eq_true, Bool.not_eq_true'] at h
  obtain ⟨⟨hc, hd⟩, hi⟩ := h
  cases cam <;> simp only [CamerasConfig.enabled] at hcam <;> simp only [Capture.slot]
  · rcases hc with hc | hc
    · rw [hc] at hcam
      cases hcam
    · exact hc
  · rcases hd with hd | hd
    · rw [hd] at hcam
      cases hcam
    · exact hd
  · rcases hi with hi | hi
    · rw [hi] at hcam
      cases hcam
    · exact hi

theorem put_slot (p : Capture) (g : Frame) (cam : CameraType) :
    (p.put g).slot cam = if g.camera = cam then some g else p.slot cam := by
  obtain ⟨gc, gt, gd⟩ := g
  cases gc <;> cases cam <;> simp [Capture.put, Capture.slot]

/-- A capture emitted on the arrival of a frame has every enabled slot filled. -/
theorem react_arrival_filled (cfg : CamerasConfig) (pending : Capture) (g : Frame) (c : Capture)
    (h : (react cfg pending (.frame_arrived g)).2 = some c) :
    filled cfg c = true ∧ c = pending.put g ∧ cfg.enabled g.camera = true := by
  simp only [react] at h
  by_cases hen : cfg.enabled g.camera = true
  · simp only [hen, if_true] at h
    by_cases hcomp : complete cfg (pending.put g) = true
    · simp only [hcomp, if_true, Option.some.injEq] at h
      subst h
      simp only [complete, Bool.and_eq_true] at hcomp
      exact ⟨hcomp.1, rfl, hen⟩
    · simp [hcomp] at h
  · simp [hen] at h

/-- C16: under the policy `SYNC_IMAGES_ONLY`, whatever the events are, every
capture the synchronizer has emitted holds an image in the slot of every
enabled camera type. -/
theorem sync_images_only_no_partial_capture (cfg : CamerasConfig)
    (hpolicy : cfg.policy = .SYNC_IMAGES_ONLY) (events : List Event) :
    ∀ c ∈ (run cfg events).emitted, ∀ cam, cfg.enabled cam = true →
      (c.slot cam).isSome = true := by
  induction events using List.reverseRecOn with
  | nil => simp [run]
  | append_singleton evs e ih =>
    intro c hc cam hcam
    rw [run_emitted_append, displaced_sync_images_only cfg hpolicy, Option.toList_none,
      List.append_nil, List.mem_append] at hc
    rcases hc with hc | hc
    · exact ih c hc cam hcam
    · rw [Option.mem_toList, Option.mem_def] at hc
      cases e with
      | frame_arrived g =>
        exact filled_slot cfg c (react_arrival_filled cfg _ g c hc).1 cam hcam
      | sync_failed =>
        simp [react, hpolicy] at hc

/-- Witness of C16, the scenario of the specification: Color and Depth arrive
and one capture with both is emitted; Depth arrives again, Color does not, the
round fails, and nothing more is emitted. -/
theorem sync_images_only_no_partial_capture_witness :
    (run (color_depth_config .SYNC_IMAGES_ONLY)
      [.frame_arrived color_frame_2, .frame_arrived depth_frame_1,
       .frame_arrived ⟨.Depth, 66700, 202⟩, .sync_failed]).emitted
      = [⟨some color_frame_2, some depth_frame_1, none⟩] ∧
    ∀ c ∈ (run (color_depth_config .SYNC_IMAGES_ONLY)
      [.frame_arrived color_frame_2, .frame_arrived depth_frame_1,
       .frame_arrived ⟨.Depth, 66700, 202⟩, .sync_failed]).emitted,
      ∀ cam, (color_depth_config .SYNC_IMAGES_ONLY).enabled cam = true →
        (c.slot cam).isSome = true :=
  ⟨by decide, sync_images_only_no_partial_capture (color_depth_config .SYNC_IMAGES_ONLY) rfl _⟩

/-- A pending frame belongs to an enabled source and is the most recent frame
that arrived on it. -/
theorem pending_is_latest (cfg : CamerasConfig) (events : List Event) (cam : CameraType)
    (f : Frame) (h : (run cfg events).pending.slot cam = some f) :
    cfg.enabled cam = true ∧ latest_frame cam events = some f := by
  induction events using List.reverseRecOn generalizing f with
  | nil => simp [run, Capture.none, Capture.slot] at h; cases cam <;> simp at h
  | append_singleton evs e ih =>
    rw [run_pending_append] at h
    rw [latest_frame_append]
    cases e with
    | frame_arrived g =>
      simp only [react] at h
      simp only [latest_after]
      by_cases hen : cfg.enabled g.camera = true
      · simp only [hen, if_true] at h
        by_cases hcomp : complete cfg ((run cfg evs).pending.put g) = true
        · simp only [hcomp, if_true] at h
          cases cam <;> simp [Capture.none, Capture.slot] at h
        · simp only [hcomp, Bool.false_eq_true, if_false] at h
          rw [put_slot] at h
          by_cases hg : g.camera = cam
          · simp only [hg, if_true] at h ⊢
            exact ⟨hg ▸ hen, h⟩
          · simp only [hg, if_false] at h ⊢
            exact ih f h
      · simp only [hen, Bool.false_eq_true, if_false] at h
        have hprev := ih f h
        have hg : g.camera ≠ cam := by
          intro hg
          rw [hg] at hen
          exact hen hprev.1
        simp only [hg, if_false]
        exact hprev
    | sync_failed =>
      simp only [latest_after]
      simp only [react] at h
      cases hp : cfg.policy with
      | SYNC_IMAGES_ONLY =>
        simp only [hp] at h
        cases cam <;> simp [Capture.none, Capture.slot] at h
      | KEEP_COLOR_IMAGE =>
        simp only [hp] at h
        split at h <;> cases cam <;> simp [Capture.none, Capture.slot] at h
      | KEEP_ALL_IMAGES =>
        simp only [hp] at h
        split at h
        · exact ih f h
        · cases cam <;> simp [Capture.none, Capture.slot] at h

theorem latest_frame_camera (cam : CameraType) (events : List Event) (f : Frame)
    (h : latest_frame cam events = some f) : f.camera = cam := by
  induction events using List.reverseRecOn generalizing f with
  | nil => simp [latest_frame] at h
  | append_singleton evs e ih =>
    rw [latest_frame_append] at h
    cases e with
    | frame_arrived g =>
      simp only [latest_after] at h
      by_cases hg : g.camera = cam
      · simp only [hg, if_true, Option.some.injEq] at h
        rw [← h]
        exact hg
      · simp only [hg, if_false] at h
        exact ih f h
    | sync_failed => exact ih f h

/-- A pending frame sits in the slot of its own source. -/
theorem pending_camera (cfg : CamerasConfig) (events : List Event) (cam : CameraType)
    (f : Frame) (h : (run cfg events).pending.slot cam = some f) : f.camera = cam :=
  latest_frame_camera cam events f (pending_is_latest cfg events cam f h).2

/-- The capture of a displaced frame holds the frame that was the most recent of
its source before the event, and nothing else. -/
theorem displaced_is_previous_latest (cfg : CamerasConfig) (events : List Event) (e : Event)
    (d : Capture) (hd : displaced cfg (run cfg events).pending e = some d)
    (cam : CameraType) (f : Frame) (hf : d.slot cam = some f) :
    latest_frame cam events = some f := by
  cases e with
  | sync_failed => simp [displaced] at hd
  | frame_arrived g =>
    simp only [displaced] at hd
    split_ifs at hd
    rw [Option.map_eq_some'] at hd
    obtain ⟨older, hold, hcap⟩ := hd
    have hcam := pending_camera cfg events g.camera older hold
    rw [← hcap, put_slot] at hf
    by_cases hc : older.camera = cam
    · simp only [hc, if_true, Option.some.injEq] at hf
      rw [← hf, ← hc, hcam]
      exact (pending_is_latest cfg events g.camera older hold).2
    · simp only [hc, if_false] at hf
      cases cam <;> simp [Capture.none, Capture.slot] at hf

/-- Under the policy `KEEP_ALL_IMAGES` no received frame of an enabled source is
discarded: every such frame that has arrived is in its slot of an emitted
capture or is still pending. -/
theorem keep_all_images_no_frame_discarded (cfg : CamerasConfig)
    (hpolicy : cfg.policy = .KEEP_ALL_IMAGES) (events : List Event) :
    ∀ f, Event.frame_arrived f ∈ events → cfg.enabled f.camera = true →
      (∃ c ∈ (run cfg events).emitted, c.slot f.camera = some f) ∨
        (run cfg events).pending.slot f.camera = some f := by
  induction events using List.reverseRecOn with
  | nil => simp
  | append_singleton evs e ih =>
    intro f hf hcam
    have hstill : ∀ c ∈ (run cfg evs).emitted, c ∈ (run cfg (evs ++ [e])).emitted := by
      intro c hc
      rw [run_emitted_append]
      simp [hc]
    have hkept : (run cfg evs).pending.slot f.camera = some f ∨ e = .frame_arrived f →
        (∃ c ∈ (run cfg (evs ++ [e])).emitted, c.slot f.camera = some f) ∨
          (run cfg (evs ++ [e])).pending.slot f.camera = some f := by
      intro h
      rw [run_emitted_append, run_pending_append]
      cases e with
      | sync_failed =>
        rcases h with hp | he
        · left
          refine ⟨(run cfg evs).pending, ?_, hp⟩
          have hne : (run cfg evs).pending ≠ Capture.none := by
            intro hnone
            rw [hnone] at hp
            cases hc : f.camera <;> rw [hc] at hp <;> simp [Capture.none, Capture.slot] at hp
          simp [react, hpolicy, hne, displaced]
        · cases he
      | frame_arrived g =>
        by_cases hen : cfg.enabled g.camera = true
        · have hreact : (∃ c ∈ (react cfg (run cfg evs).pending (.frame_arrived g)).2.toList,
                c = (run cfg evs).pending.put g) ∨
              (react cfg (run cfg evs).pending (.frame_arrived g)).1
                = (run cfg evs).pending.put g := by
            by_cases hcomp : complete cfg ((run cfg evs).pending.put g) = true
            · left
              simp [react, hen, hcomp]
            · right
              simp [react, hen, hcomp]
          have hput : ∀ f0, ((run cfg evs).pending.put g).slot f.camera = some f0 →
              (∃ c ∈ (run cfg evs).emitted ++
                  (displaced cfg (run cfg evs).pending (.frame_arrived g)).toList ++
                  (react cfg (run cfg evs).pending (.frame_arrived g)).2.toList,
                c.slot f.camera = some f0) ∨
                (react cfg (run cfg evs).pending (.frame_arrived g)).1.slot f.camera
                  = some f0 := by
            intro f0 h0
            rcases hreact with ⟨c, hc, hceq⟩ | hpend
            · left
              exact ⟨c, List.mem_append_right _ hc, by rw [hceq]; exact h0⟩
            · right
              rw [hpend]
              exact h0
          by_cases hg : g.camera = f.camera
          · rcases h with hp | he
            · left
              refine ⟨Capture.none.put f, ?_, ?_⟩
              · simp [displaced, hpolicy, Policy.keeps, hg, hp, hcam]
              · rw [put_slot]
                simp
            · have hfg : g = f := by
                injection he
              subst hfg
              apply hput
              rw [put_slot]
              simp
          · rcases h with hp | he
            · apply hput
              rw [put_slot]
              simp [hg, hp]
            · have hfg : g = f := by
                injection he
              rw [hfg] at hg
              exact absurd rfl hg
        · rcases h with hp | he
          · right
            simp [react, hen, hp]
          · have hfg : g = f := by
              injection he
            rw [hfg] at hen
            exact absurd hcam hen
    rw [List.mem_append, List.mem_singleton] at hf
    rcases hf with hf | hf
    · rcases ih f hf hcam with ⟨c, hc, hcf⟩ | hp
      · exact Or.inl ⟨c, hstill c hc, hcf⟩
      · exact hkept (Or.inl hp)
    · exact hkept (Or.inr hf.symm)

end spec

namespace ob2

/-- C26: `imu_config::enable_gyro_stream(enable)` and
`imu_config::disable_gyro_stream(enable)` do not depend on their argument: for
any two argument values each makes the same core call and returns the same;
`enable_gyro_stream` always calls `ob2_imu_config_enable_gyro_stream`, also for
`OB2_DISABLE`, and `disable_gyro_stream` always calls
`ob2_imu_config_disable_gyro_stream`, also for `OB2_ENABLE`. -/
theorem gyro_stream_switch_ignores_argument (core : CoreCall → ob2_status_t)
    (self : imu_config) (enable1 enable2 : Nat) (t : Trace) :
    self.enable_gyro_stream core enable1 t = self.enable_gyro_stream core enable2 t ∧
    self.disable_gyro_stream core enable1 t = self.disable_gyro_stream core enable2 t ∧
    (self.enable_gyro_stream core enable1 t).1 =
      t ++ [.ob2_imu_config_enable_gyro_stream self.m_imu_config_handle] ∧
    (self.disable_gyro_stream core enable1 t).1 =
      t ++ [.ob2_imu_config_disable_gyro_stream self.m_imu_config_handle] ∧
    (self.enable_gyro_stream core OB2_DISABLE t).1 =
      t ++ [.ob2_imu_config_enable_gyro_stream self.m_imu_config_handle] ∧
    (self.disable_gyro_stream core OB2_ENABLE t).1 =
      t ++ [.ob2_imu_config_disable_gyro_stream self.m_imu_config_handle] :=
  ⟨rfl, rfl, rfl, rfl, rfl, rfl⟩

end ob2

namespace viewer

open ob2 cv

/-- A closed window stays closed under every call, and every call on it only
closes the windows, whatever the codecs are. -/
theorem closed_window_run (cv : Codec) (ops : List WindowOp) :
    ∀ w : Window, w._windowClose = true →
      (Window.run cv w ops).1._windowClose = true ∧
      (∀ c ∈ (Window.run cv w ops).2, c = RenderCall.destroyAllWindows) ∧
      (∀ cv' : Codec, Window.run cv' w ops = Window.run cv w ops) := by
  induction ops with
  | nil =>
    intro w hw
    simp [Window.run, hw]
  | cons op rest ih =>
    intro w hw
    have hstep : (w.apply cv op).1._windowClose = true ∧
        (∀ c ∈ (w.apply cv op).2, c = RenderCall.destroyAllWindows) ∧
        (∀ cv' : Codec, w.apply cv' op = w.apply cv op) := by
      cases op with
      | resize width height => simp [Window.apply, Window.resize, hw]
      | render key_read images renderType =>
        by_cases hk : key_read = ESC <;> simp [Window.apply, Window.render, hw, hk]
      | render_alpha key_read images alpha =>
        by_cases hk : key_read = ESC <;> simp [Window.apply, Window.render_alpha, hw, hk]
    obtain ⟨h1, h2, h3⟩ := hstep
    obtain ⟨i1, i2, i3⟩ := ih (w.apply cv op).1 h1
    refine ⟨by simpa [Window.run] using i1, ?_, ?_⟩
    · intro c hc
      simp only [Window.run, List.mem_append] at hc
      rcases hc with hc | hc
      · exact h2 c hc
      · exact i2 c hc
    · intro cv'
      simp only [Window.run, h3 cv', i3 cv']

/-- C21: the closed flag of `Window` is absorbing. A call of either `render`
that reads the key ESC (27) closes the window and shows nothing. After it,
whatever calls of `render` and `resize` follow and whatever keys they read, the
window is still closed, `operator bool` returns false, every call has done
nothing but `cv::destroyAllWindows()`, and the outcome does not depend on the
codecs: no image is decoded or displayed. -/
theorem window_close_is_absorbing (cv : Codec) (w : Window) (images : List (Option Frame))
    (renderType : RenderType) (alpha : ℚ) (ops : List WindowOp) :
    (w.render cv ESC images renderType).1._windowClose = true ∧
    (w.render cv ESC images renderType).2 = [.destroyAllWindows] ∧
    (w.render_alpha cv ESC images alpha).1._windowClose = true ∧
    (w.render_alpha cv ESC images alpha).2 = [.destroyAllWindows] ∧
    (Window.run cv (w.render cv ESC images renderType).1 ops).1._windowClose = true ∧
    (Window.run cv (w.render cv ESC images renderType).1 ops).1.operator_bool = false ∧
    (∀ c ∈ (Window.run cv (w.render cv ESC images renderType).1 ops).2,
      c = RenderCall.destroyAllWindows) ∧
    (∀ cv' : Codec, Window.run cv' (w.render cv ESC images renderType).1 ops =
      Window.run cv (w.render cv ESC images renderType).1 ops) ∧
    (Window.run cv (w.render_alpha cv ESC images alpha).1 ops).1._windowClose = true ∧
    (Window.run cv (w.render_alpha cv ESC images alpha).1 ops).1.operator_bool = false ∧
    (∀ c ∈ (Window.run cv (w.render_alpha cv ESC images alpha).1 ops).2,
      c = RenderCall.destroyAllWindows) ∧
    (∀ cv' : Codec, Window.run cv' (w.render_alpha cv ESC images alpha).1 ops =
      Window.run cv (w.render_alpha cv ESC images alpha).1 ops) := by
  have h1 : (w.render cv ESC images renderType).1._windowClose = true := by
    simp [Window.render]
  have h2 : (w.render_alpha cv ESC images alpha).1._windowClose = true := by
    simp [Window.render_alpha]
  obtain ⟨a1, a2, a3⟩ := closed_window_run cv ops _ h1
  obtain ⟨b1, b2, b3⟩ := closed_window_run cv ops _ h2
  refine ⟨h1, by simp [Window.render], h2, by simp [Window.render_alpha], a1, ?_, a2, a3,
    b1, ?_, b2, b3⟩
  · simp [Window.operator_bool, a1]
  · simp [Window.operator_bool, b1]

theorem int_cast_of_nonneg {x : ℚ} (h : 0 ≤ x) : int_cast x = ⌊x⌋ := by
  simp [int_cast, h]

/-- The number of columns of the grid when the root estimate is at least one
hundredth and below 100. -/
theorem grid_layout_cols (count : Int) (sq : ℚ) (hlo : 1 / 100 ≤ sq) (hhi : sq < 100) :
    1 ≤ (grid_layout count sq).1 ∧ (grid_layout count sq).1 ≤ 100 := by
  have hnn : (0 : ℚ) ≤ sq := by linarith
  have hf0 : 0 ≤ ⌊sq⌋ := Int.floor_nonneg.mpr hnn
  have hf99 : ⌊sq⌋ < 100 := by
    rw [Int.floor_lt]
    exact_mod_cast hhi
  simp only [grid_layout, int_cast_of_nonneg hnn]
  split_ifs with hfrac
  · constructor
    · by_contra hlt
      have hz : ⌊sq⌋ = 0 := by omega
      rw [hz] at hfrac
      simp only [Int.cast_zero, sub_zero] at hfrac
      linarith
    · omega
  · constructor <;> omega

/-- The number of rows of the grid for a positive number of columns up to 100. -/
theorem grid_rows_cover (count cols : Int) (hcount : 1 ≤ count) (hc1 : 1 ≤ cols)
    (hc100 : cols ≤ 100) :
    1 ≤ (if (count : ℚ) / (cols : ℚ) - (int_cast ((count : ℚ) / (cols : ℚ)) : ℚ) < 1 / 100
        then int_cast ((count : ℚ) / (cols : ℚ))
        else int_cast ((count : ℚ) / (cols : ℚ)) + 1) ∧
    count ≤ (if (count : ℚ) / (cols : ℚ) - (int_cast ((count : ℚ) / (cols : ℚ)) : ℚ) < 1 / 100
        then int_cast ((count : ℚ) / (cols : ℚ))
        else int_cast ((count : ℚ) / (cols : ℚ)) + 1) * cols := by
  have hcq : (0 : ℚ) < (cols : ℚ) := by exact_mod_cast (by omega : (0 : Int) < cols)
  have hcq100 : (cols : ℚ) ≤ 100 := by exact_mod_cast hc100
  have hcountq : (1 : ℚ) ≤ (count : ℚ) := by exact_mod_cast hcount
  have hdiv : (0 : ℚ) ≤ (count : ℚ) / (cols : ℚ) := by positivity
  rw [int_cast_of_nonneg hdiv]
  have hfl : ((⌊(count : ℚ) / (cols : ℚ)⌋ : Int) : ℚ) ≤ (count : ℚ) / (cols : ℚ) :=
    Int.floor_le _
  have hfu : (count : ℚ) / (cols : ℚ) < ((⌊(count : ℚ) / (cols : ℚ)⌋ : Int) : ℚ) + 1 :=
    Int.lt_floor_add_one _
  have hf0 : 0 ≤ ⌊(count : ℚ) / (cols : ℚ)⌋ := Int.floor_nonneg.mpr hdiv
  generalize ⌊(count : ℚ) / (cols : ℚ)⌋ = d at hfl hfu hf0 ⊢
  have hle : (d : ℚ) * (cols : ℚ) ≤ (count : ℚ) := by
    have := mul_le_mul_of_nonneg_right hfl hcq.le
    rwa [div_mul_cancel₀ _ hcq.ne'] at this
  have hlt : (count : ℚ) < ((d : ℚ) + 1) * (cols : ℚ) := by
    have := mul_lt_mul_of_pos_right hfu hcq
    rwa [div_mul_cancel₀ _ hcq.ne'] at this
  split_ifs with hfrac
  · have hsmall : (count : ℚ) - (d : ℚ) * (cols : ℚ) < 1 := by
      have h1 : ((count : ℚ) / (cols : ℚ) - (d : ℚ)) * (cols : ℚ) < 1 / 100 * (cols : ℚ) :=
        mul_lt_mul_of_pos_right hfrac hcq
      rw [sub_mul, div_mul_cancel₀ _ hcq.ne'] at h1
      linarith
    have hsmallz : count - d * cols < 1 := by exact_mod_cast hsmall
    have hlez : d * cols ≤ count := by exact_mod_cast hle
    have heq : d * cols = count := by omega
    refine ⟨?_, by omega⟩
    by_contra hd
    have hd0 : d = 0 := by omega
    rw [hd0] at heq
    simp at heq
    omega
  · have hltz : count < (d + 1) * cols := by exact_mod_cast hlt
    exact ⟨by omega, by omega⟩

/-- C22 (as the code has it): in `RENDER_GRID` mode, for every number of images
`count ≥ 1` for which the root estimate `sq = 1 / Q_rsqrt(count)` is at least
one hundredth and below 100, the computed layout has `1 ≤ cols ≤ 100`,
`rows ≥ 1` and `rows * cols ≥ count`, and every image index `k < count` is shown
in exactly one cell of the grid, that of row `k / cols` and column `k % cols`. -/
theorem grid_layout_covers (count : Int) (hcount : 1 ≤ count) (sq : ℚ) (hlo : 1 / 100 ≤ sq)
    (hhi : sq < 100) :
    1 ≤ (grid_layout count sq).1 ∧ (grid_layout count sq).1 ≤ 100 ∧
    1 ≤ (grid_layout count sq).2 ∧
    count ≤ (grid_layout count sq).2 * (grid_layout count sq).1 ∧
    ∀ k : Int, 0 ≤ k → k < count →
      (0 ≤ k / (grid_layout count sq).1 ∧ k / (grid_layout count sq).1 < (grid_layout count sq).2) ∧
      (0 ≤ k % (grid_layout count sq).1 ∧ k % (grid_layout count sq).1 < (grid_layout count sq).1) ∧
      grid_cell (grid_layout count sq).1 count (k / (grid_layout count sq).1)
        (k % (grid_layout count sq).1) = some k ∧
      ∀ i j : Int, 0 ≤ j → j < (grid_layout count sq).1 →
        grid_cell (grid_layout count sq).1 count i j = some k →
        i = k / (grid_layout count sq).1 ∧ j = k % (grid_layout count sq).1 := by
  obtain ⟨hc1, hc100⟩ := grid_layout_cols count sq hlo hhi
  have hrows := grid_rows_cover count (grid_layout count sq).1 hcount hc1 hc100
  have hrows_eq : (grid_layout count sq).2 =
      (if (count : ℚ) / ((grid_layout count sq).1 : ℚ) -
            (int_cast ((count : ℚ) / ((grid_layout count sq).1 : ℚ)) : ℚ) < 1 / 100
        then int_cast ((count : ℚ) / ((grid_layout count sq).1 : ℚ))
        else int_cast ((count : ℚ) / ((grid_layout count sq).1 : ℚ)) + 1) := rfl
  rw [← hrows_eq] at hrows
  obtain ⟨hr1, hcover⟩ := hrows
  generalize (grid_layout count sq).1 = cols at hc1 hc100 hcover ⊢
  generalize (grid_layout count sq).2 = rows at hr1 hcover ⊢
  have hcpos : 0 < cols := by omega
  refine ⟨hc1, hc100, hr1, hcover, ?_⟩
  intro k hk0 hkc
  refine ⟨⟨Int.ediv_nonneg hk0 hcpos.le, ?_⟩, ⟨Int.emod_nonneg k hcpos.ne', Int.emod_lt_of_pos k hcpos⟩,
    ?_, ?_⟩
  · exact Int.ediv_lt_of_lt_mul hcpos (lt_of_lt_of_le hkc hcover)
  · have hidx : k / cols * cols + k % cols = k := by
      rw [mul_comm]
      exact Int.ediv_add_emod k cols
    simp [grid_cell, hidx, hkc]
  · intro i j hj0 hjc hcell
    simp only [grid_cell] at hcell
    split_ifs at hcell with hlt
    have hidx : i * cols + j = k := Option.some.inj hcell
    have : k / cols = i ∧ k % cols = j :=
      (Int.ediv_emod_unique hcpos).mpr ⟨by rw [← hidx]; ring, hj0, hjc⟩
    exact ⟨this.1.symm, this.2.symm⟩

/-- Witness of C22: three images with the root estimate 454443/262144 (about
1.7336): two columns, two rows. -/
theorem grid_layout_covers_witness :
    1 ≤ (grid_layout 3 (454443 / 262144)).1 ∧ (grid_layout 3 (454443 / 262144)).1 ≤ 100 ∧
    1 ≤ (grid_layout 3 (454443 / 262144)).2 ∧
    3 ≤ (grid_layout 3 (454443 / 262144)).2 * (grid_layout 3 (454443 / 262144)).1 :=
  ⟨(grid_layout_covers 3 (by norm_num) (454443 / 262144) (by norm_num) (by norm_num)).1,
   (grid_layout_covers 3 (by norm_num) (454443 / 262144) (by norm_num) (by norm_num)).2.1,
   (grid_layout_covers 3 (by norm_num) (454443 / 262144) (by norm_num) (by norm_num)).2.2.1,
   (grid_layout_covers 3 (by norm_num) (454443 / 262144) (by norm_num) (by norm_num)).2.2.2.1⟩

/-- C22 fails as stated: for 10101 images the root estimate is
3298833/32768 (about 100.67, the value of `1.0f / Q_rsqrt(10101.0f)` in single
precision; the root is about 100.50 and any estimate from 100.01 to below 101
gives the same layout); the layout is 101 columns and 100 rows, 10100 cells,
and no cell of the grid shows the image of index 10100. -/
theorem grid_layout_counterexample :
    grid_layout 10101 (3298833 / 32768) = (101, 100) ∧
    ¬ ((10101 : Int) ≤ 100 * 101) ∧
    ∀ i j : Int, 0 ≤ i → i < 100 → 0 ≤ j → j < 101 → grid_cell 101 10101 i j ≠ some 10100 := by
  have h1 : ⌊(3298833 / 32768 : ℚ)⌋ = 100 := by
    rw [Int.floor_eq_iff]
    norm_num
  have h2 : ⌊((10101 : ℤ) : ℚ) / ((101 : ℤ) : ℚ)⌋ = 100 := by
    rw [Int.floor_eq_iff]
    norm_num
  refine ⟨?_, by norm_num, ?_⟩
  · simp only [grid_layout, int_cast]
    norm_num [h1, h2]
  · intro i j hi0 hi hj0 hj hcell
    simp only [grid_cell] at hcell
    split_ifs at hcell
    have := Option.some.inj hcell
    omega

theorem CHECK_error_of_error_code (st : ob2_status_t)
    (h : st.code = OB2_STATUS_LOGIC_ERROR ∨ st.code = OB2_STATUS_RUNTIME_ERROR ∨
      st.code = OB2_STATUS_UNKNOWN_ERROR) :
    ∃ e, CHECK_OB2_STATUS_ERROR_THROW st = .error e := by
  simp only [CHECK_OB2_STATUS_ERROR_THROW]
  split_ifs with h1 h2 h3
  · exact ⟨_, rfl⟩
  · exact ⟨_, rfl⟩
  · exact ⟨_, rfl⟩
  · rcases h with h | h | h <;> contradiction

/-- What `get_capture` gives in `main`, by the answer of the core. -/
theorem get_capture_in_main (dev : device Unit) (answer : Handle × ob2_status_t) :
    (∀ e, CHECK_OB2_STATUS_ERROR_THROW answer.2 = .error e →
      dev.get_capture (fun _ _ => answer) 100 = .error e) ∧
    (CHECK_OB2_STATUS_ERROR_THROW answer.2 = .ok () → answer.1 ≠ nullptr →
      dev.get_capture (fun _ _ => answer) 100 = .ok (some ⟨answer.1⟩)) ∧
    (CHECK_OB2_STATUS_ERROR_THROW answer.2 = .ok () → answer.1 = nullptr →
      dev.get_capture (fun _ _ => answer) 100 = .ok none) := by
  refine ⟨?_, ?_, ?_⟩
  · intro e he
    simp [device.get_capture, he, bind, Except.bind]
  · intro hok hne
    simp [device.get_capture, hok, Ne.symm hne, capture.from_handle, VALIDATE_NOT_NULL_ok hne,
      bind, Except.bind, pure, Except.pure]
  · intro hok hnull
    simp [device.get_capture, hok, hnull, bind, Except.bind, pure, Except.pure]

/-- The core contract on `ob2_device_get_capture`: a null capture handle comes
only with one of the error codes of `ob2_status_code_t`. -/
theorem acquire_no_null_dereference (cv : Codec) (dev : device Unit) (inp : IterationInput)
    (hcontract : inp.capture_answer.1 = nullptr →
      (inp.capture_answer.2.code = OB2_STATUS_LOGIC_ERROR ∨
        inp.capture_answer.2.code = OB2_STATUS_RUNTIME_ERROR ∨
        inp.capture_answer.2.code = OB2_STATUS_UNKNOWN_ERROR)) :
    acquire cv dev inp ≠ .null_dereference := by
  obtain ⟨herr, hok, _⟩ := get_capture_in_main dev inp.capture_answer
  cases hc : CHECK_OB2_STATUS_ERROR_THROW inp.capture_answer.2 with
  | error e =>
    simp only [acquire, herr e hc]
    cases e <;> simp
  | ok u =>
    by_cases hnull : inp.capture_answer.1 = nullptr
    · obtain ⟨e, he⟩ := CHECK_error_of_error_code _ (hcontract hnull)
      rw [he] at hc
      cases hc
    · simp only [acquire, hok hc hnull]
      split <;> simp

theorem main_loop_no_null_dereference (cv : Codec) (dev : device Unit)
    (inputs : List IterationInput)
    (hcontract : ∀ inp ∈ inputs, inp.capture_answer.1 = nullptr →
      (inp.capture_answer.2.code = OB2_STATUS_LOGIC_ERROR ∨
        inp.capture_answer.2.code = OB2_STATUS_RUNTIME_ERROR ∨
        inp.capture_answer.2.code = OB2_STATUS_UNKNOWN_ERROR)) :
    ∀ s : ViewerState, (main_loop cv dev s inputs).2 ≠ .null_dereference := by
  induction inputs with
  | nil =>
    intro s
    simp [main_loop]
  | cons inp rest ih =>
    intro s
    have hrest := ih (fun i hi => hcontract i (List.mem_cons_of_mem _ hi))
    have hacq := acquire_no_null_dereference cv dev inp (hcontract inp (List.mem_cons_self _ _))
    simp only [main_loop]
    cases hq : acquire cv dev inp with
    | timeout =>
      simp only
      split_ifs
      · simp
      · exact hrest s
    | thrown e => simp
    | null_dereference => exact absurd hq hacq
    | mats l =>
      simp only
      split_ifs
      · simp
      · exact hrest _

/-- C23 (as the code has it): in the loop of `main`, under the core contract
that a null capture handle comes only with one of the three status codes on
which `CHECK_OB2_STATUS_ERROR_THROW` throws (`OB2_STATUS_LOGIC_ERROR`,
`OB2_STATUS_RUNTIME_ERROR`, `OB2_STATUS_UNKNOWN_ERROR`), no iteration
dereferences a null capture pointer: when `get_capture` throws, the iteration
is skipped (`std::runtime_error`) or the exception leaves the loop, and when it
returns, the capture is not null. A null color image is tolerated:
`processImages` returns the empty list for it, so the iteration ends with no
matrix. -/
theorem main_dereferences_no_null_capture (cv : Codec) (dev : device Unit)
    (inputs : List IterationInput)
    (hcontract : ∀ inp ∈ inputs, inp.capture_answer.1 = nullptr →
      (inp.capture_answer.2.code = OB2_STATUS_LOGIC_ERROR ∨
        inp.capture_answer.2.code = OB2_STATUS_RUNTIME_ERROR ∨
        inp.capture_answer.2.code = OB2_STATUS_UNKNOWN_ERROR)) :
    (∀ s : ViewerState, (main_loop cv dev s inputs).2 ≠ .null_dereference) ∧
    (∀ inp ∈ inputs, acquire cv dev inp ≠ .null_dereference) ∧
    (∀ inp ∈ inputs, ∀ e, dev.get_capture (fun _ _ => inp.capture_answer) 100 = .error e →
      acquire cv dev inp = .timeout ∨ acquire cv dev inp = .thrown e) ∧
    (∀ inp ∈ inputs, inp.capture_answer.2.code = OB2_STATUS_RUNTIME_ERROR →
      acquire cv dev inp = .timeout) ∧
    (∀ inp ∈ inputs, CHECK_OB2_STATUS_ERROR_THROW inp.capture_answer.2 = .ok () →
      CHECK_OB2_STATUS_ERROR_THROW inp.color_answer.2 = .ok () →
      inp.color_answer.1 = nullptr → acquire cv dev inp = .mats []) ∧
    processImages cv [none] = [] := by
  refine ⟨main_loop_no_null_dereference cv dev inputs hcontract,
    fun inp hi => acquire_no_null_dereference cv dev inp (hcontract inp hi), ?_, ?_, ?_, rfl⟩
  · intro inp _ e he
    simp only [acquire, he]
    cases e <;> simp
  · intro inp _ hcode
    have hc : CHECK_OB2_STATUS_ERROR_THROW inp.capture_answer.2 =
        .error (.runtime_error inp.capture_answer.2.message) := by
      simp [CHECK_OB2_STATUS_ERROR_THROW, hcode, OB2_STATUS_RUNTIME_ERROR,
        OB2_STATUS_LOGIC_ERROR]
    simp only [acquire, (get_capture_in_main dev inp.capture_answer).1 _ hc]
  · intro inp hi hok hcok hcnull
    have hne : inp.capture_answer.1 ≠ nullptr := by
      intro hnull
      obtain ⟨e, he⟩ := CHECK_error_of_error_code _ (hcontract inp hi hnull)
      rw [he] at hok
      cases hok
    simp only [acquire, (get_capture_in_main dev inp.capture_answer).2.1 hok hne]
    simp [capture.get_color_image, hcok, hcnull, bind, Except.bind, pure, Except.pure,
      processImages, processImages.loop]

/-- Witness of C23: a timeout, then a capture without color image; the loop is
still running and nothing was dereferenced through a null pointer. -/
theorem main_dereferences_no_null_capture_witness :
    (main_loop sampleCodec sample_device ViewerState.initial
      [timeout_input, null_color_input]).2 ≠ .null_dereference ∧
    acquire sampleCodec sample_device timeout_input = .timeout ∧
    acquire sampleCodec sample_device null_color_input = .mats [] :=
  have hcontract : ∀ inp ∈ [timeout_input, null_color_input],
      inp.capture_answer.1 = nullptr →
      (inp.capture_answer.2.code = OB2_STATUS_LOGIC_ERROR ∨
        inp.capture_answer.2.code = OB2_STATUS_RUNTIME_ERROR ∨
        inp.capture_answer.2.code = OB2_STATUS_UNKNOWN_ERROR) := by
    intro inp hi hnull
    simp only [List.mem_cons, List.mem_singleton, List.not_mem_nil, or_false] at hi
    rcases hi with rfl | rfl
    · exact Or.inr (Or.inl rfl)
    · exact absurd hnull (by decide)
  ⟨(main_dereferences_no_null_capture sampleCodec sample_device _ hcontract).1 _,
   (main_dereferences_no_null_capture sampleCodec sample_device _ hcontract).2.2.2.1
     timeout_input (by simp) rfl,
   (main_dereferences_no_null_capture sampleCodec sample_device _ hcontract).2.2.2.2.1
     null_color_input (by simp) rfl rfl rfl⟩

/-- C23 fails as stated: a null capture handle that comes with the status code
3 meets the contract of the claim, the status not being `OB2_STATUS_OK`; the
switch of `CHECK_OB2_STATUS_ERROR_THROW` has no case for 3, so `get_capture`
does not throw and returns a null pointer, and `main` calls
`capture->get_color_image()` through it. -/
theorem main_null_capture_counterexample :
    unlisted_status_input.capture_answer.1 = nullptr ∧
    unlisted_status_input.capture_answer.2.code ≠ OB2_STATUS_OK ∧
    sample_device.get_capture (fun _ _ => unlisted_status_input.capture_answer) 100
      = .ok none ∧
    acquire sampleCodec sample_device unlisted_status_input = .null_dereference ∧
    (main_loop sampleCodec sample_device ViewerState.initial [unlisted_status_input]).2
      = .null_dereference := by
  refine ⟨rfl, by decide, rfl, rfl, rfl⟩

theorem save_loop_numbered (mats : List Mat) (ui : Nat → Int × Bool) :
    ∀ (s : ViewerState) (n : Nat), numbered s → numbered (save_loop s mats ui n) := by
  induction mats with
  | nil =>
    intro s n hs
    exact hs
  | cons m rest ih =>
    intro s n hs
    simp only [save_loop]
    split_ifs
    · exact hs
    · exact ih _ _ hs
    · apply ih
      simp only [numbered] at hs ⊢
      rw [hs, List.range_succ, List.map_append]
      rfl
    · exact ih _ _ hs

theorem main_loop_numbered (cv : Codec) (dev : device Unit) (inputs : List IterationInput) :
    ∀ s : ViewerState, numbered s → numbered (main_loop cv dev s inputs).1 := by
  induction inputs with
  | nil =>
    intro s hs
    exact hs
  | cons inp rest ih =>
    intro s hs
    simp only [main_loop]
    cases acquire cv dev inp with
    | timeout =>
      simp only
      split_ifs
      · exact hs
      · exact ih s hs
    | thrown e => exact hs
    | null_dereference => exact hs
    | mats l =>
      have hs' := save_loop_numbered l inp.ui s 0 hs
      simp only
      split_ifs
      · exact hs'
      · exact ih _ hs'

end viewer

namespace ieee

theorem round_half_even_eq (q : ℚ) (m : ℤ) (h1 : (m : ℚ) - 1 / 2 < q) (h2 : q < m + 1 / 2) :
    round_half_even q = m := by
  unfold round_half_even
  simp only
  by_cases hf : ⌊q⌋ = m
  · have hq : q - ⌊q⌋ < 1 / 2 := by rw [hf]; linarith
    rw [if_pos hq, hf]
  · have hfl : (⌊q⌋ : ℚ) ≤ q := Int.floor_le q
    have hfl2 : q < ⌊q⌋ + 1 := Int.lt_floor_add_one q
    have hlt : ⌊q⌋ < m + 1 := by
      have : (⌊q⌋ : ℚ) < m + 1 := by linarith
      exact_mod_cast this
    have hgt : m - 1 < ⌊q⌋ + 1 := by
      have : (m : ℚ) - 1 < ⌊q⌋ + 1 := by linarith
      exact_mod_cast this
    have hm : ⌊q⌋ = m - 1 := by omega
    have hmq : ((⌊q⌋ : ℤ) : ℚ) = m - 1 := by rw [hm]; push_cast; ring
    have h3 : ¬ q - ⌊q⌋ < 1 / 2 := by rw [hmq]; linarith
    have h4 : 1 / 2 < q - ⌊q⌋ := by rw [hmq]; linarith
    rw [if_neg h3, if_pos h4, hm]
    ring

theorem round_half_even_tie (q : ℚ) (m : ℤ) (heven : m % 2 = 0)
    (h : q = m + 1 / 2 ∨ q = m - 1 / 2) : round_half_even q = m := by
  unfold round_half_even
  simp only
  rcases h with h | h
  · have hf : ⌊q⌋ = m := by
      rw [Int.floor_eq_iff, h]
      constructor <;> linarith
    rw [hf, h]
    norm_num [heven]
  · have hf : ⌊q⌋ = m - 1 := by
      rw [Int.floor_eq_iff, h]
      push_cast
      constructor <;> linarith
    have hodd : (m - 1) % 2 ≠ 0 := by omega
    rw [hf, h]
    push_cast
    norm_num [hodd]

theorem round_to_eq (prec : Nat) (q : ℚ) (e m : ℤ) (hq : 0 < q)
    (h1 : (2 : ℚ) ^ e ≤ q) (h2 : q < (2 : ℚ) ^ (e + 1))
    (h3 : (((m : ℚ) - 1 / 2) * 2 ^ (e + 1 - prec) < q ∧
        q < ((m : ℚ) + 1 / 2) * 2 ^ (e + 1 - prec)) ∨
      (m % 2 = 0 ∧ ((m : ℚ) - 1 / 2) * 2 ^ (e + 1 - prec) ≤ q ∧
        q ≤ ((m : ℚ) + 1 / 2) * 2 ^ (e + 1 - prec))) :
    round_to prec q = m * 2 ^ (e + 1 - prec) := by
  have hlog : Int.log 2 |q| = e := by
    rw [abs_of_pos hq]
    apply le_antisymm
    · have := (Int.lt_zpow_iff_log_lt (by norm_num : 1 < 2) hq).mp (by exact_mod_cast h2)
      omega
    · exact (Int.zpow_le_iff_le_log (by norm_num : 1 < 2) hq).mp (by exact_mod_cast h1)
  unfold round_to
  rw [if_neg hq.ne']
  simp only [hlog]
  have hu : (0 : ℚ) < 2 ^ (e + 1 - (prec : ℤ)) := by positivity
  have hround : round_half_even (q / 2 ^ (e + 1 - (prec : ℤ))) = m := by
    have hstrict : ∀ (a : (m : ℚ) - 1 / 2 < q / 2 ^ (e + 1 - (prec : ℤ)))
        (b : q / 2 ^ (e + 1 - (prec : ℤ)) < m + 1 / 2),
        round_half_even (q / 2 ^ (e + 1 - (prec : ℤ))) = m :=
      fun a b => round_half_even_eq _ m a b
    rcases h3 with ⟨h3, h4⟩ | ⟨heven, h3, h4⟩
    · exact hstrict ((lt_div_iff₀ hu).mpr h3) ((div_lt_iff₀ hu).mpr h4)
    · have h3q : (m : ℚ) - 1 / 2 ≤ q / 2 ^ (e + 1 - (prec : ℤ)) := (le_div_iff₀ hu).mpr h3
      have h4q : q / 2 ^ (e + 1 - (prec : ℤ)) ≤ m + 1 / 2 := (div_le_iff₀ hu).mpr h4
      rcases h3q.lt_or_eq with h3s | h3e
      · rcases h4q.lt_or_eq with h4s | h4e
        · exact hstrict h3s h4s
        · exact round_half_even_tie _ m heven (Or.inl h4e)
      · exact round_half_even_tie _ m heven (Or.inr h3e.symm)
  rw [hround]

theorem to_float_zero : to_float 0 = 0 := by
  simp [to_float, round_to]

end ieee

namespace calibrator

open cv ieee

theorem SIDE_LENGTH_eq : SIDE_LENGTH = 3602879701896397 / 144115188075855872 := by
  unfold SIDE_LENGTH to_double
  rw [round_to_eq 53 (25 / 1000) (-6) 7205759403792794 (by norm_num) (by norm_num)
    (by norm_num) (Or.inl ⟨by norm_num, by norm_num⟩)]
  norm_num

theorem coordinate_0 : coordinate 0 = 0 := by
  simp [coordinate, to_double, to_float, round_to]

theorem coordinate_1 : coordinate 1 = 13421773 / 536870912 := by
  have hd : to_double (3602879701896397 / 144115188075855872) = 3602879701896397 / 144115188075855872 := by
    unfold to_double
    rw [round_to_eq 53 (3602879701896397 / 144115188075855872) (-6) 7205759403792794 (by norm_num) (by norm_num)
      (by norm_num) (Or.inl ⟨by norm_num, by norm_num⟩)]
    norm_num
  have hf : to_float (3602879701896397 / 144115188075855872) = 13421773 / 536870912 := by
    unfold to_float
    rw [round_to_eq 24 (3602879701896397 / 144115188075855872) (-6) 13421773 (by norm_num) (by norm_num)
      (by norm_num) (Or.inl ⟨by norm_num, by norm_num⟩)]
    norm_num
  have hp : (((1 : Nat) : ℚ)) * SIDE_LENGTH = 3602879701896397 / 144115188075855872 := by
    rw [SIDE_LENGTH_eq]
    norm_num
  rw [coordinate, hp, hd, hf]

theorem coordinate_2 : coordinate 2 = 13421773 / 268435456 := by
  have hd : to_double (3602879701896397 / 72057594037927936) = 3602879701896397 / 72057594037927936 := by
    unfold to_double
    rw [round_to_eq 53 (3602879701896397 / 72057594037927936) (-5) 7205759403792794 (by norm_num) (by norm_num)
      (by norm_num) (Or.inl ⟨by norm_num, by norm_num⟩)]
    norm_num
  have hf : to_float (3602879701896397 / 72057594037927936) = 13421773 / 268435456 := by
    unfold to_float
    rw [round_to_eq 24 (3602879701896397 / 72057594037927936) (-5) 13421773 (by norm_num) (by norm_num)
      (by norm_num) (Or.inl ⟨by norm_num, by norm_num⟩)]
    norm_num
  have hp : (((2 : Nat) : ℚ)) * SIDE_LENGTH = 3602879701896397 / 72057594037927936 := by
    rw [SIDE_LENGTH_eq]
    norm_num
  rw [coordinate, hp, hd, hf]

theorem coordinate_3 : coordinate 3 = 5033165 / 67108864 := by
  have hd : to_double (10808639105689191 / 144115188075855872) = 1351079888211149 / 18014398509481984 := by
    unfold to_double
    rw [round_to_eq 53 (10808639105689191 / 144115188075855872) (-4) 5404319552844596 (by norm_num) (by norm_num)
      (by norm_num) (Or.inr ⟨by norm_num, by norm_num, by norm_num⟩)]
    norm_num
  have hf : to_float (1351079888211149 / 18014398509481984) = 5033165 / 67108864 := by
    unfold to_float
    rw [round_to_eq 24 (1351079888211149 / 18014398509481984) (-4) 10066330 (by norm_num) (by norm_num)
      (by norm_num) (Or.inl ⟨by norm_num, by norm_num⟩)]
    norm_num
  have hp : (((3 : Nat) : ℚ)) * SIDE_LENGTH = 10808639105689191 / 144115188075855872 := by
    rw [SIDE_LENGTH_eq]
    norm_num
  rw [coordinate, hp, hd, hf]

theorem coordinate_4 : coordinate 4 = 13421773 / 134217728 := by
  have hd : to_double (3602879701896397 / 36028797018963968) = 3602879701896397 / 36028797018963968 := by
    unfold to_double
    rw [round_to_eq 53 (3602879701896397 / 36028797018963968) (-4) 7205759403792794 (by norm_num) (by norm_num)
      (by norm_num) (Or.inl ⟨by norm_num, by norm_num⟩)]
    norm_num
  have hf : to_float (3602879701896397 / 36028797018963968) = 13421773 / 134217728 := by
    unfold to_float
    rw [round_to_eq 24 (3602879701896397 / 36028797018963968) (-4) 13421773 (by norm_num) (by norm_num)
      (by norm_num) (Or.inl ⟨by norm_num, by norm_num⟩)]
    norm_num
  have hp : (((4 : Nat) : ℚ)) * SIDE_LENGTH = 3602879701896397 / 36028797018963968 := by
    rw [SIDE_LENGTH_eq]
    norm_num
  rw [coordinate, hp, hd, hf]

theorem coordinate_5 : coordinate 5 = 1 / 8 := by
  have hd : to_double (18014398509481985 / 144115188075855872) = 1 / 8 := by
    unfold to_double
    rw [round_to_eq 53 (18014398509481985 / 144115188075855872) (-3) 4503599627370496 (by norm_num) (by norm_num)
      (by norm_num) (Or.inl ⟨by norm_num, by norm_num⟩)]
    norm_num
  have hf : to_float (1 / 8) = 1 / 8 := by
    unfold to_float
    rw [round_to_eq 24 (1 / 8) (-3) 8388608 (by norm_num) (by norm_num)
      (by norm_num) (Or.inl ⟨by norm_num, by norm_num⟩)]
    norm_num
  have hp : (((5 : Nat) : ℚ)) * SIDE_LENGTH = 18014398509481985 / 144115188075855872 := by
    rw [SIDE_LENGTH_eq]
    norm_num
  rw [coordinate, hp, hd, hf]

theorem coordinate_6 : coordinate 6 = 5033165 / 33554432 := by
  have hd : to_double (10808639105689191 / 72057594037927936) = 1351079888211149 / 9007199254740992 := by
    unfold to_double
    rw [round_to_eq 53 (10808639105689191 / 72057594037927936) (-3) 5404319552844596 (by norm_num) (by norm_num)
      (by norm_num) (Or.inr ⟨by norm_num, by norm_num, by norm_num⟩)]
    norm_num
  have hf : to_float (1351079888211149 / 9007199254740992) = 5033165 / 33554432 := by
    unfold to_float
    rw [round_to_eq 24 (1351079888211149 / 9007199254740992) (-3) 10066330 (by norm_num) (by norm_num)
      (by norm_num) (Or.inl ⟨by norm_num, by norm_num⟩)]
    norm_num
  have hp : (((6 : Nat) : ℚ)) * SIDE_LENGTH = 10808639105689191 / 72057594037927936 := by
    rw [SIDE_LENGTH_eq]
    norm_num
  rw [coordinate, hp, hd, hf]

theorem coordinate_7 : coordinate 7 = 11744051 / 67108864 := by
  have hd : to_double (25220157913274779 / 144115188075855872) = 6305039478318695 / 36028797018963968 := by
    unfold to_double
    rw [round_to_eq 53 (25220157913274779 / 144115188075855872) (-3) 6305039478318695 (by norm_num) (by norm_num)
      (by norm_num) (Or.inl ⟨by norm_num, by norm_num⟩)]
    norm_num
  have hf : to_float (6305039478318695 / 36028797018963968) = 11744051 / 67108864 := by
    unfold to_float
    rw [round_to_eq 24 (6305039478318695 / 36028797018963968) (-3) 11744051 (by norm_num) (by norm_num)
      (by norm_num) (Or.inl ⟨by norm_num, by norm_num⟩)]
    norm_num
  have hp : (((7 : Nat) : ℚ)) * SIDE_LENGTH = 25220157913274779 / 144115188075855872 := by
    rw [SIDE_LENGTH_eq]
    norm_num
  rw [coordinate, hp, hd, hf]

theorem coordinate_8 : coordinate 8 = 13421773 / 67108864 := by
  have hd : to_double (3602879701896397 / 18014398509481984) = 3602879701896397 / 18014398509481984 := by
    unfold to_double
    rw [round_to_eq 53 (3602879701896397 / 18014398509481984) (-3) 7205759403792794 (by norm_num) (by norm_num)
      (by norm_num) (Or.inl ⟨by norm_num, by norm_num⟩)]
    norm_num
  have hf : to_float (3602879701896397 / 18014398509481984) = 13421773 / 67108864 := by
    unfold to_float
    rw [round_to_eq 24 (3602879701896397 / 18014398509481984) (-3) 13421773 (by norm_num) (by norm_num)
      (by norm_num) (Or.inl ⟨by norm_num, by norm_num⟩)]
    norm_num
  have hp : (((8 : Nat) : ℚ)) * SIDE_LENGTH = 3602879701896397 / 18014398509481984 := by
    rw [SIDE_LENGTH_eq]
    norm_num
  rw [coordinate, hp, hd, hf]

theorem coordinate_9 : coordinate 9 = 7549747 / 33554432 := by
  have hd : to_double (32425917317067573 / 144115188075855872) = 8106479329266893 / 36028797018963968 := by
    unfold to_double
    rw [round_to_eq 53 (32425917317067573 / 144115188075855872) (-3) 8106479329266893 (by norm_num) (by norm_num)
      (by norm_num) (Or.inl ⟨by norm_num, by norm_num⟩)]
    norm_num
  have hf : to_float (8106479329266893 / 36028797018963968) = 7549747 / 33554432 := by
    unfold to_float
    rw [round_to_eq 24 (8106479329266893 / 36028797018963968) (-3) 15099494 (by norm_num) (by norm_num)
      (by norm_num) (Or.inl ⟨by norm_num, by norm_num⟩)]
    norm_num
  have hp : (((9 : Nat) : ℚ)) * SIDE_LENGTH = 32425917317067573 / 144115188075855872 := by
    rw [SIDE_LENGTH_eq]
    norm_num
  rw [coordinate, hp, hd, hf]

theorem coordinate_10 : coordinate 10 = 1 / 4 := by
  have hd : to_double (18014398509481985 / 72057594037927936) = 1 / 4 := by
    unfold to_double
    rw [round_to_eq 53 (18014398509481985 / 72057594037927936) (-2) 4503599627370496 (by norm_num) (by norm_num)
      (by norm_num) (Or.inl ⟨by norm_num, by norm_num⟩)]
    norm_num
  have hf : to_float (1 / 4) = 1 / 4 := by
    unfold to_float
    rw [round_to_eq 24 (1 / 4) (-2) 8388608 (by norm_num) (by norm_num)
      (by norm_num) (Or.inl ⟨by norm_num, by norm_num⟩)]
    norm_num
  have hp : (((10 : Nat) : ℚ)) * SIDE_LENGTH = 18014398509481985 / 72057594037927936 := by
    rw [SIDE_LENGTH_eq]
    norm_num
  rw [coordinate, hp, hd, hf]

/-- The values stored for the eleven coordinates `k * SIDE_LENGTH`, `k < 11`. -/
theorem coordinate_values :
    (List.range 11).map coordinate =
      [0, 13421773 / 536870912, 13421773 / 268435456, 5033165 / 67108864,
       13421773 / 134217728, 1 / 8, 5033165 / 33554432, 11744051 / 67108864,
       13421773 / 67108864, 7549747 / 33554432, 1 / 4] := by
  simp only [List.range_succ, List.range_zero, List.nil_append, List.cons_append,
    List.map_cons, List.map_nil, coordinate_0, coordinate_1, coordinate_2, coordinate_3,
    coordinate_4, coordinate_5, coordinate_6, coordinate_7, coordinate_8, coordinate_9,
    coordinate_10]

/-- Each stored coordinate is within `2 ^ (-27)` of the exact product. -/
theorem coordinate_near (k : Nat) (hk : k < 11) :
    |coordinate k - (k : ℚ) * (25 / 1000)| < 1 / 2 ^ 27 := by
  interval_cases k
  · rw [coordinate_0]; norm_num
  · rw [coordinate_1, abs_lt]; norm_num
  · rw [coordinate_2, abs_lt]; norm_num
  · rw [coordinate_3, abs_lt]; norm_num
  · rw [coordinate_4, abs_lt]; norm_num
  · rw [coordinate_5, abs_lt]; norm_num
  · rw [coordinate_6, abs_lt]; norm_num
  · rw [coordinate_7, abs_lt]; norm_num
  · rw [coordinate_8, abs_lt]; norm_num
  · rw [coordinate_9, abs_lt]; norm_num
  · rw [coordinate_10, abs_lt]; norm_num

/-- A stored coordinate is the exact product for `k = 0, 5, 10` only. -/
theorem coordinate_exact_iff (k : Nat) (hk : k < 11) :
    coordinate k = (k : ℚ) * (25 / 1000) ↔ (k = 0 ∨ k = 5 ∨ k = 10) := by
  interval_cases k
  · rw [coordinate_0]; norm_num
  · rw [coordinate_1]; norm_num
  · rw [coordinate_2]; norm_num
  · rw [coordinate_3]; norm_num
  · rw [coordinate_4]; norm_num
  · rw [coordinate_5]; norm_num
  · rw [coordinate_6]; norm_num
  · rw [coordinate_7]; norm_num
  · rw [coordinate_8]; norm_num
  · rw [coordinate_9]; norm_num
  · rw [coordinate_10]; norm_num

/-- What one iteration of the image loop does, by what is read and found. -/
theorem iteration_cases (disk : Disk) (find : Mat → Option (List Point2f)) (s : CalibState) :
    ((disk.imread s.count).empty = true →
      iteration disk find s = ({ s with count := s.count + 1 }, false)) ∧
    ((disk.imread s.count).empty = false → find (disk.imread s.count) = none →
      iteration disk find s =
        ({ s with count := s.count + 1, loaded := s.loaded ++ [s.count] }, true)) ∧
    (∀ corners, (disk.imread s.count).empty = false →
      find (disk.imread s.count) = some corners →
      iteration disk find s =
        ({ count := s.count + 1, loaded := s.loaded ++ [s.count],
           im_points := s.im_points ++ [corners],
           obj_points := s.obj_points ++ [obj_pt] }, true)) := by
  refine ⟨?_, ?_, ?_⟩
  · intro he
    simp [iteration, he]
  · intro he hf
    simp [iteration, he, hf]
  · intro corners he hf
    simp [iteration, he, hf]

/-- A property that every iteration keeps holds when the loop ends. -/
theorem image_loop_keeps (disk : Disk) (find : Mat → Option (List Point2f))
    (P : CalibState → Prop) (hstep : ∀ s, P s → P (iteration disk find s).1) :
    ∀ (d : Nat) (s : CalibState), d = disk.bound - s.count → P s →
      P (image_loop disk find s) := by
  intro d
  induction d using Nat.strong_induction_on with
  | _ d ih =>
    intro s hd hs
    rw [image_loop]
    split_ifs with h
    · have hne : (disk.imread s.count).empty = false := by
        cases he : (disk.imread s.count).empty with
        | false => rfl
        | true => rw [(iteration_cases disk find s).1 he] at h; cases h
      have hlt : s.count < disk.bound := by
        by_contra hge
        have := disk.missing s.count (by omega)
        rw [hne] at this
        cases this
      have hcount : (iteration disk find s).1.count = s.count + 1 := by
        cases hf : find (disk.imread s.count) with
        | none => rw [(iteration_cases disk find s).2.1 hne hf]
        | some c => rw [(iteration_cases disk find s).2.2 c hne hf]
      exact ih (disk.bound - (s.count + 1)) (by omega) _ (by rw [hcount]) (hstep s hs)
    · exact hstep s hs

theorem iteration_consistent (disk : Disk) (find : Mat → Option (List Point2f))
    (s : CalibState) (hs : consistent disk find s) :
    consistent disk find (iteration disk find s).1 := by
  obtain ⟨h1, h2⟩ := hs
  cases he : (disk.imread s.count).empty with
  | true =>
    rw [(iteration_cases disk find s).1 he]
    exact ⟨h1, h2⟩
  | false =>
    cases hf : find (disk.imread s.count) with
    | none =>
      rw [(iteration_cases disk find s).2.1 he hf]
      simp only [consistent, List.filterMap_append, List.filterMap_cons, hf,
        List.filterMap_nil, List.append_nil]
      exact ⟨h1, h2⟩
    | some c =>
      rw [(iteration_cases disk find s).2.2 c he hf]
      simp only [consistent, List.filterMap_append, List.filterMap_cons, hf,
        List.filterMap_nil, List.map_append, List.map_cons, List.map_nil]
      exact ⟨by rw [h1], by rw [h2]⟩

theorem length_flatMap_range (R C : Nat) (f : Nat → Nat → Point3f) :
    ((List.range R).flatMap fun i => (List.range C).map (f i)).length = R * C := by
  induction R with
  | zero => simp
  | succ n ih =>
    rw [List.range_succ, List.flatMap_append, List.length_append, ih]
    simp [Nat.succ_mul]

theorem getElem?_flatMap_range (R C : Nat) (f : Nat → Nat → Point3f) (i j : Nat)
    (hi : i < R) (hj : j < C) :
    ((List.range R).flatMap fun i => (List.range C).map (f i))[i * C + j]? = some (f i j) := by
  induction R with
  | zero => omega
  | succ n ih =>
    rw [List.range_succ, List.flatMap_append]
    by_cases hin : i < n
    · have hlt : i * C + j < n * C := by
        calc i * C + j < i * C + C := by omega
          _ = (i + 1) * C := by ring
          _ ≤ n * C := Nat.mul_le_mul_right C hin
      rw [List.getElem?_append_left (by rw [length_flatMap_range]; exact hlt)]
      exact ih hin
    · have hie : i = n := by omega
      subst hie
      rw [List.getElem?_append_right (by rw [length_flatMap_range]; omega),
        length_flatMap_range]
      simp [List.getElem?_range hj]

/-- When the files numbered below `n` can all be read, the loop reads each of
them. -/
theorem image_loop_reads_all (disk : Disk) (find : Mat → Option (List Point2f)) (n : Nat)
    (hpresent : ∀ k, k < n → (disk.imread k).empty = false) :
    ∀ (d : Nat) (s : CalibState), d = disk.bound - s.count →
      (∀ k, k < n → k < s.count → k ∈ s.loaded) →
      ∀ k, k < n → k ∈ (image_loop disk find s).loaded := by
  intro d
  induction d using Nat.strong_induction_on with
  | _ d ih =>
    intro s hd hs k hk
    rw [image_loop]
    cases he : (disk.imread s.count).empty with
    | true =>
      have hge : n ≤ s.count := by
        by_contra hlt
        have := hpresent s.count (by omega)
        rw [he] at this
        cases this
      rw [(iteration_cases disk find s).1 he]
      simp only [Bool.false_eq_true, dite_false]
      exact hs k hk (by omega)
    | false =>
      have hlt : s.count < disk.bound := by
        by_contra hge
        have := disk.missing s.count (by omega)
        rw [he] at this
        cases this
      have hnext : ∀ s' : CalibState, s'.count = s.count + 1 →
          s'.loaded = s.loaded ++ [s.count] →
          ∀ k, k < n → k ∈ (image_loop disk find s').loaded := by
        intro s' hc hl
        refine ih (disk.bound - (s.count + 1)) (by omega) s' (by rw [hc]) ?_
        intro k' hk' hk's
        rw [hl, List.mem_append, List.mem_singleton]
        rcases Nat.lt_or_ge k' s.count with h | h
        · exact Or.inl (hs k' hk' h)
        · exact Or.inr (by omega)
      cases hf : find (disk.imread s.count) with
      | none =>
        rw [(iteration_cases disk find s).2.1 he hf]
        simp only [dite_true]
        exact hnext _ rfl rfl k hk
      | some c =>
        rw [(iteration_cases disk find s).2.2 c he hf]
        simp only [dite_true]
        exact hnext _ rfl rfl k hk

/-- C25 (as the code has it): in the image loop of the calibrator, an iteration
that starts with `im_points` and `obj_points` in agreement with the images read
leaves them so: both have the same length, one entry for each image read in
which the chessboard was found and none for the others (an iteration adds one
entry to both when the board is found and none otherwise); the same holds when
the loop ends. Every entry of `obj_points` is the grid `obj_pt` of
`BOARD_ROW * BOARD_COL = 88` points, whose point at index `i * 11 + j` is
`(coordinate i, coordinate j, 0)`: a coordinate is the product `k * 0.025`
computed in `double` and converted to `float`, one of the eleven values listed,
each within `2 ^ (-27)` of `k * 0.025` and equal to it for `k = 0, 5, 10`
only. -/
theorem calibrator_points_consistent (disk : Disk) (find : Mat → Option (List Point2f))
    (s : CalibState) (hs : consistent disk find s) :
    consistent disk find (iteration disk find s).1 ∧
    (iteration disk find s).1.im_points.length = (iteration disk find s).1.obj_points.length ∧
    (∀ e ∈ (iteration disk find s).1.obj_points, e = obj_pt) ∧
    (∀ corners, (disk.imread s.count).empty = false →
      find (disk.imread s.count) = some corners →
      (iteration disk find s).1.im_points = s.im_points ++ [corners] ∧
      (iteration disk find s).1.obj_points = s.obj_points ++ [obj_pt]) ∧
    ((disk.imread s.count).empty = true ∨ find (disk.imread s.count) = none →
      (iteration disk find s).1.im_points = s.im_points ∧
      (iteration disk find s).1.obj_points = s.obj_points) ∧
    consistent disk find (image_loop disk find CalibState.initial) ∧
    (image_loop disk find CalibState.initial).im_points.length =
      (image_loop disk find CalibState.initial).obj_points.length ∧
    obj_pt.length = BOARD_ROW * BOARD_COL ∧ BOARD_ROW * BOARD_COL = 88 ∧
    (∀ i j : Nat, i < BOARD_ROW → j < BOARD_COL →
      obj_pt[i * 11 + j]? = some (coordinate i, coordinate j, 0)) ∧
    (List.range 11).map coordinate =
      [0, 13421773 / 536870912, 13421773 / 268435456, 5033165 / 67108864,
       13421773 / 134217728, 1 / 8, 5033165 / 33554432, 11744051 / 67108864,
       13421773 / 67108864, 7549747 / 33554432, 1 / 4] ∧
    (∀ k : Nat, k < 11 → |coordinate k - (k : ℚ) * (25 / 1000)| < 1 / 2 ^ 27) ∧
    (∀ k : Nat, k < 11 → (coordinate k = (k : ℚ) * (25 / 1000) ↔ (k = 0 ∨ k = 5 ∨ k = 10))) := by
  have hnext := iteration_consistent disk find s hs
  have hfinal : consistent disk find (image_loop disk find CalibState.initial) :=
    image_loop_keeps disk find (consistent disk find) (iteration_consistent disk find) _ _ rfl
      ⟨rfl, rfl⟩
  refine ⟨hnext, by rw [hnext.2]; simp, ?_, ?_, ?_, hfinal, by rw [hfinal.2]; simp,
    length_flatMap_range BOARD_ROW BOARD_COL
      (fun i j => (coordinate i, coordinate j, to_float 0)), rfl, ?_, coordinate_values,
    coordinate_near, coordinate_exact_iff⟩
  · intro e he
    rw [hnext.2] at he
    simp only [List.mem_map] at he
    obtain ⟨_, _, rfl⟩ := he
    rfl
  · intro corners he hf
    rw [(iteration_cases disk find s).2.2 corners he hf]
    exact ⟨rfl, rfl⟩
  · intro h
    cases he : (disk.imread s.count).empty with
    | true =>
      rw [(iteration_cases disk find s).1 he]
      exact ⟨rfl, rfl⟩
    | false =>
      rcases h with h | h
      · rw [he] at h
        cases h
      · rw [(iteration_cases disk find s).2.1 he h]
        exact ⟨rfl, rfl⟩
  · intro i j hi hj
    rw [← to_float_zero]
    exact getElem?_flatMap_range BOARD_ROW BOARD_COL
      (fun i j => (coordinate i, coordinate j, to_float 0)) i j hi hj

/-- Witness of C25: the first iteration on a directory with the files 0, 1, 2;
the board is found in the file 0. -/
theorem calibrator_points_consistent_witness :
    consistent sample_disk sample_find (iteration sample_disk sample_find CalibState.initial).1 ∧
    (iteration sample_disk sample_find CalibState.initial).1.im_points = [] ++ [[(0, 0)]] ∧
    (iteration sample_disk sample_find CalibState.initial).1.obj_points = [] ++ [obj_pt] :=
  ⟨(calibrator_points_consistent sample_disk sample_find CalibState.initial ⟨rfl, rfl⟩).1,
   (calibrator_points_consistent sample_disk sample_find CalibState.initial
      ⟨rfl, rfl⟩).2.2.2.1 [(0, 0)] rfl rfl⟩

/-- C25 fails as stated: the point of `obj_pt` at index `1 * 11 + 1` is not
`(1 * 0.025, 1 * 0.025, 0)`. Its coordinates are values of type `float`, and
0.025 is none: the value stored is `13421773 / 536870912`, that is
`13421773 / 2 ^ 29`, a little above `25 / 1000`. -/
theorem obj_pt_exact_counterexample :
    obj_pt[1 * 11 + 1]? = some (13421773 / 536870912, 13421773 / 536870912, 0) ∧
    obj_pt[1 * 11 + 1]? ≠ some ((1 : ℚ) * (25 / 1000), (1 : ℚ) * (25 / 1000), 0) ∧
    (25 / 1000 : ℚ) < 13421773 / 536870912 := by
  have h : obj_pt[1 * 11 + 1]? = some (13421773 / 536870912, 13421773 / 536870912, 0) := by
    rw [← coordinate_1, ← to_float_zero]
    exact getElem?_flatMap_range BOARD_ROW BOARD_COL
      (fun i j => (coordinate i, coordinate j, to_float 0)) 1 1 (by decide) (by decide)
  refine ⟨h, ?_, by norm_num⟩
  rw [h]
  norm_num

end calibrator

namespace viewer

open ob2 cv

/-- C24: in the loop of `main` the save counter advances only after a successful
write. After any inputs, the files written by the run are exactly those named
`../imgs/0.jpg` to `../imgs/(count-1).jpg`, in order and without a gap; a failed
write leaves `count` and the files as they were, a successful one writes the
file numbered `count` and adds one to `count`. The calibrator builds the same
names, and when the files numbered below `count` can be read its scan reads
every one of them. -/
theorem saved_files_are_numbered (cv : Codec) (dev : device Unit)
    (inputs : List IterationInput) :
    (main_loop cv dev ViewerState.initial inputs).1.written =
      (List.range (main_loop cv dev ViewerState.initial inputs).1.count).map image_path ∧
    (∀ (s : ViewerState) (m : Mat) (ui : Nat → Int × Bool) (n : Nat),
      to_char (ui n).1 = char_s → (ui n).2 = false →
      (save_loop s [m] ui n).count = s.count ∧ (save_loop s [m] ui n).written = s.written) ∧
    (∀ (s : ViewerState) (m : Mat) (ui : Nat → Int × Bool) (n : Nat),
      to_char (ui n).1 = char_s → (ui n).2 = true →
      (save_loop s [m] ui n).count = s.count + 1 ∧
      (save_loop s [m] ui n).written = s.written ++ [image_path s.count]) ∧
    (∀ k, image_path k = calibrator.image_path k) ∧
    (∀ (disk : calibrator.Disk) (find : Mat → Option (List calibrator.Point2f)),
      (∀ k, k < (main_loop cv dev ViewerState.initial inputs).1.count →
        (disk.imread k).empty = false) →
      ∀ k, k < (main_loop cv dev ViewerState.initial inputs).1.count →
        k ∈ (calibrator.image_loop disk find calibrator.CalibState.initial).loaded) := by
  refine ⟨main_loop_numbered cv dev inputs ViewerState.initial rfl, ?_, ?_, fun _ => rfl, ?_⟩
  · intro s m ui n hkey hok
    simp [save_loop, hkey, hok, char_s, char_q]
  · intro s m ui n hkey hok
    simp [save_loop, hkey, hok, char_s, char_q]
  · intro disk find hpresent k hk
    exact calibrator.image_loop_reads_all disk find _ hpresent _ _ rfl
      (fun k' _ hk' => absurd hk' (by simp [calibrator.CalibState.initial])) k hk

/-- Witness of C24: the key `s` is read three times and the second write fails;
two files are written, numbered 0 and 1, and the calibrator reads both from a
directory that holds the files 0, 1 and 2. -/
theorem saved_files_are_numbered_witness :
    (main_loop sampleCodec sample_device ViewerState.initial
        [color_input 115 true, color_input 115 false, color_input 115 true]).1.written =
      (List.range (main_loop sampleCodec sample_device ViewerState.initial
        [color_input 115 true, color_input 115 false, color_input 115 true]).1.count).map
        image_path ∧
    (main_loop sampleCodec sample_device ViewerState.initial
        [color_input 115 true, color_input 115 false, color_input 115 true]).1.count = 2 ∧
    ∀ k, k < (main_loop sampleCodec sample_device ViewerState.initial
        [color_input 115 true, color_input 115 false, color_input 115 true]).1.count →
      k ∈ (calibrator.image_loop calibrator.sample_disk calibrator.sample_find
        calibrator.CalibState.initial).loaded :=
  have hcount : (main_loop sampleCodec sample_device ViewerState.initial
      [color_input 115 true, color_input 115 false, color_input 115 true]).1.count = 2 := by
    simp [main_loop, acquire, color_input, device.get_capture, capture.get_color_image,
      CHECK_OB2_STATUS_ERROR_THROW, capture.from_handle, image.from_handle, VALIDATE_NOT_NULL,
      sample_device, OB2_STATUS_OK, OB2_STATUS_LOGIC_ERROR, OB2_STATUS_RUNTIME_ERROR,
      OB2_STATUS_UNKNOWN_ERROR, nullptr, bind, Except.bind, pure, Except.pure, processImages,
      processImages.loop, decodeImage, ir_mjpg_frame, sampleCodec, Mat.empty, save_loop,
      to_char, char_q, char_s, char_Q, ViewerState.initial, OB2_CAMERA_COLOR, OB2_FORMAT_MJPG,
      OB2_CAMERA_IR]
  ⟨(saved_files_are_numbered sampleCodec sample_device _).1, hcount,
   (saved_files_are_numbered sampleCodec sample_device _).2.2.2.2 calibrator.sample_disk
     calibrator.sample_find (by
       intro k hk
       rw [hcount] at hk
       have h3 : k < 3 := by omega
       simp [calibrator.sample_disk, h3, Mat.empty])⟩

end viewer
